import Mathlib

/-!
# Teleport event pipeline: discard audit stream, usage-event conversion, editor-role diff

A shallow embedding of `lib/events/discard.go` (the discard binding of the audit
stream and emitter), of `lib/web/ui/ui_resource.go`, of
`lib/service/servicecfg/plugins.go`, and of the usage-reporter functions exercised by
`lib/usagereporter/teleport/usagereporter_test.go`.

Conventions of the embedding

* A Go method with a pointer receiver becomes a function that takes the receiver
  state and returns a `Result`: the returned value, the receiver state after the
  call and the list of externally visible effects the call performed, in order.
* A Go run-time panic is the `error` side of `Except Panic`.
* A Go `error` is `Option GoError`; `none` is the `nil` error.
* A channel value is `Option Chan`; `none` is the `nil` channel.
* A slice is `Slice α` and a map is `GoMap`; `none` is the `nil` slice or map.
-/

namespace Teleport

/-- Go errors that occur in this development: `trace.BadParameter(msg)`, the two
errors a `context.Context` can report, and the plain `trace.Errorf` error with its
formatted message. -/
inductive GoError where
  | BadParameter (msg : String)
  | Canceled
  | DeadlineExceeded
  | Errorf (msg : String)
  deriving DecidableEq, Repr

/-- Whether the error is a `trace.BadParameter` error (`trace.IsBadParameter`). -/
def GoError.IsBadParameter : GoError → Bool
  | .BadParameter _ => true
  | _ => false

namespace events

/-! ## Data model -/

/-- A `context.Context`, reduced to the value of `ctx.Err()`: `none` while the context
is live, `some Canceled` or `some DeadlineExceeded` once it has been cancelled. -/
structure Context where
  err : Option GoError
  deriving DecidableEq, Repr

/-- The live background context. -/
def Context.background : Context := ⟨none⟩

/-- A context that has already been cancelled. -/
def Context.cancelledCtx : Context := ⟨some GoError.Canceled⟩

/-- An `apievents.AuditEvent`, reduced to the four getters the discard binding reads. -/
structure AuditEvent where
  GetID : String
  GetType : String
  GetTime : Int
  GetIndex : Int
  deriving DecidableEq, Repr

/-- A byte of a `[]byte` payload. -/
abbrev Byte := Fin 256

/-- A run-time panic of the Go channel primitives. -/
inductive Panic where
  | closeOfNilChannel
  | closeOfClosedChannel
  deriving DecidableEq, Repr

/-- An allocated `chan struct{}` on which nothing is ever sent: its identity and
whether it has been closed. -/
structure Chan where
  addr : Nat
  closed : Bool
  deriving DecidableEq, Repr

/-- Level of a logrus call. -/
inductive LogLevel where
  | trace
  | debug
  deriving DecidableEq, Repr

/-- Externally visible effects of the discard binding: closing a channel and
issuing a log call with the four event fields. -/
inductive Effect where
  | closeChan (addr : Nat)
  | log (level : LogLevel) (event_id event_type : String) (event_time event_index : Int)
      (msg : String)
  deriving DecidableEq, Repr

/-- The struct `DiscardStream`: the atomic `completed` flag and the `done` channel. -/
structure DiscardStream where
  completed : Bool
  done : Option Chan
  deriving DecidableEq, Repr

/-- What a method call yields: its return value, the receiver afterwards, and the
effects performed. -/
structure Result (α : Type) where
  ret : α
  stream : DiscardStream
  effects : List Effect
  deriving DecidableEq, Repr

/-- The builtin `close(ch)`: panics on a nil channel and on a closed channel,
otherwise marks the channel closed. -/
def closeChan : Option Chan → Except Panic Chan
  | none => .error .closeOfNilChannel
  | some ch => if ch.closed then .error .closeOfClosedChannel else .ok { ch with closed := true }

/-- The error value `trace.BadParameter("stream is closed")`. -/
def streamClosed : GoError := .BadParameter "stream is closed"

/-! ## `DiscardStream` -/

/-- `NewDiscardStream`: `completed` is the zero value, `done` is the channel freshly
allocated by `make(chan struct{})`, whose address is `addr`. -/
def NewDiscardStream (addr : Nat) : DiscardStream :=
  { completed := false, done := some { addr := addr, closed := false } }

/-- `DiscardStream.Write`. -/
def DiscardStream.Write (d : DiscardStream) (p : List Byte) : Result (Nat × Option GoError) :=
  if d.completed then
    { ret := (0, some streamClosed), stream := d, effects := [] }
  else
    { ret := (p.length, none), stream := d, effects := [] }

/-- `DiscardStream.Status`: returns the nil channel. -/
def DiscardStream.Status (d : DiscardStream) : Result (Option Chan) :=
  { ret := none, stream := d, effects := [] }

/-- `DiscardStream.Done`: returns the `done` channel. -/
def DiscardStream.Done (d : DiscardStream) : Result (Option Chan) :=
  { ret := d.done, stream := d, effects := [] }

/-- `DiscardStream.Complete`: if the flag loads as false, close `done`; then store
true into the flag; return nil. The context is not consulted. -/
def DiscardStream.Complete (d : DiscardStream) (_ctx : Context) :
    Except Panic (Result (Option GoError)) :=
  if !d.completed then
    match closeChan d.done with
    | .error p => .error p
    | .ok ch =>
      .ok { ret := none, stream := { completed := true, done := some ch },
            effects := [Effect.closeChan ch.addr] }
  else
    .ok { ret := none, stream := { d with completed := true }, effects := [] }

/-- `DiscardStream.Close`: returns `d.Complete(ctx)`. -/
def DiscardStream.Close (d : DiscardStream) (ctx : Context) :
    Except Panic (Result (Option GoError)) :=
  d.Complete ctx

/-- `DiscardStream.SetupEvent`: does nothing. -/
def DiscardStream.SetupEvent (d : DiscardStream) (_event : AuditEvent) : Result (Option GoError) :=
  { ret := none, stream := d, effects := [] }

/-- `DiscardStream.RecordEvent`: rejects on a completed stream; otherwise issues a
trace-level log call with the event fields and returns nil. -/
def DiscardStream.RecordEvent (d : DiscardStream) (_ctx : Context) (event : AuditEvent) :
    Result (Option GoError) :=
  if d.completed then
    { ret := some streamClosed, stream := d, effects := [] }
  else
    { ret := none, stream := d,
      effects := [Effect.log .trace event.GetID event.GetType event.GetTime event.GetIndex
        "Discarding stream event"] }

/-! ## `DiscardEmitter` -/

/-- `DiscardEmitter.EmitAuditEvent`: issues a debug-level log call and returns nil. -/
def DiscardEmitter.EmitAuditEvent (_ctx : Context) (event : AuditEvent) :
    Option GoError × List Effect :=
  (none, [Effect.log .debug event.GetID event.GetType event.GetTime event.GetIndex "Discarding event"])

/-- `DiscardEmitter.CreateAuditStream`: a new discard stream and a nil error. `addr` is the
address of the channel the constructor allocates. -/
def DiscardEmitter.CreateAuditStream (addr : Nat) (_ctx : Context) (_sid : String) :
    DiscardStream × Option GoError :=
  (NewDiscardStream addr, none)

/-- `DiscardEmitter.ResumeAuditStream`: a new discard stream and a nil error. -/
def DiscardEmitter.ResumeAuditStream (addr : Nat) (_ctx : Context) (_sid : String)
    (_uploadID : String) : DiscardStream × Option GoError :=
  (NewDiscardStream addr, none)

/-! ## Sequential use of a stream -/

/-- One call on a stream, with its arguments. -/
inductive Op where
  | SetupEvent (event : AuditEvent)
  | RecordEvent (ctx : Context) (event : AuditEvent)
  | Write (p : List Byte)
  | Status
  | Done
  | Close (ctx : Context)
  | Complete (ctx : Context)
  deriving DecidableEq, Repr

/-- Whether the call is `Complete` or `Close`. -/
def Op.completes : Op → Bool
  | .Close _ => true
  | .Complete _ => true
  | _ => false

/-- Perform one call: the receiver afterwards and the effects, or the panic. -/
def applyOp (d : DiscardStream) : Op → Except Panic (DiscardStream × List Effect)
  | .SetupEvent e => let r := d.SetupEvent e; .ok (r.stream, r.effects)
  | .RecordEvent ctx e => let r := d.RecordEvent ctx e; .ok (r.stream, r.effects)
  | .Write p => let r := d.Write p; .ok (r.stream, r.effects)
  | .Status => let r := d.Status; .ok (r.stream, r.effects)
  | .Done => let r := d.Done; .ok (r.stream, r.effects)
  | .Close ctx =>
    match d.Close ctx with
    | .error p => .error p
    | .ok r => .ok (r.stream, r.effects)
  | .Complete ctx =>
    match d.Complete ctx with
    | .error p => .error p
    | .ok r => .ok (r.stream, r.effects)

/-- Perform the calls one after the other; the effects are concatenated in order. -/
def runOps (d : DiscardStream) : List Op → Except Panic (DiscardStream × List Effect)
  | [] => .ok (d, [])
  | op :: ops =>
    match applyOp d op with
    | .error p => .error p
    | .ok (d1, e1) =>
      match runOps d1 ops with
      | .error p => .error p
      | .ok (d2, e2) => .ok (d2, e1 ++ e2)

/-- Whether an effect is a channel close. -/
def Effect.isClose : Effect → Bool
  | .closeChan _ => true
  | _ => false

/-- The state a stream created with channel `addr` is in once completed: flag set,
channel closed. -/
def completedStream (addr : Nat) : DiscardStream :=
  { completed := true, done := some { addr := addr, closed := true } }

/-! ## Concurrent calls of `Complete` / `Close`

`Complete` performs three atomic actions on the shared stream: the load of the flag,
the close of the channel (only when the load returned false) and the store of the
flag. `Close` only forwards to `Complete`, so a goroutine that runs either of them
takes the same steps. Goroutines interleave at the granularity of these actions. -/

/-- Where a goroutine that runs `Complete` stands. -/
inductive Pc where
  | atLoad
  | atClose
  | atStore
  | returned (err : Option GoError)
  deriving DecidableEq, Repr

/-- One atomic action of a goroutine on the shared stream. A goroutine that has
returned takes no further action. -/
def stepComplete (d : DiscardStream) : Pc → Except Panic (DiscardStream × Pc × List Effect)
  | .atLoad => .ok (d, if !d.completed then .atClose else .atStore, [])
  | .atClose =>
    match closeChan d.done with
    | .error p => .error p
    | .ok ch => .ok ({ d with done := some ch }, .atStore, [Effect.closeChan ch.addr])
  | .atStore => .ok ({ d with completed := true }, .returned none, [])
  | .returned e => .ok (d, .returned e, [])

/-- The shared stream, the program counter of every goroutine and the effects so far. -/
structure Config where
  stream : DiscardStream
  pcs : List Pc
  effects : List Effect
  deriving DecidableEq, Repr

/-- The configuration in which `n` goroutines are about to call `Complete` on `d`. -/
def Config.init (d : DiscardStream) (n : Nat) : Config :=
  { stream := d, pcs := List.replicate n Pc.atLoad, effects := [] }

/-- Goroutine `i` takes its next atomic action. A panic terminates the program. -/
def stepAt (c : Config) (i : Nat) : Except Panic Config :=
  match c.pcs[i]? with
  | none => .ok c
  | some pc =>
    match stepComplete c.stream pc with
    | .error p => .error p
    | .ok (d, pc1, es) => .ok { stream := d, pcs := c.pcs.set i pc1, effects := c.effects ++ es }

/-- Run an interleaving, given as the list of goroutine indices in the order in which
they take their actions. -/
def runSchedule (c : Config) : List Nat → Except Panic Config
  | [] => .ok c
  | i :: rest =>
    match stepAt c i with
    | .error p => .error p
    | .ok c1 => runSchedule c1 rest

end events

/-! ## Usage events (`lib/usagereporter/teleport`)

The test file `usagereporter_test.go` is part of the sources; the functions it
exercises (`ConvertUsageEvent`, `Anonymize`, `EmitEditorChangeEvent`) and the generated
schema types are not, and are modelled from the specification. -/

/-- The constant `teleport.PresetEditorRoleName`. -/
def PresetEditorRoleName : String := "editor"

namespace usageeventsv1

/-- Modelled from the spec: the generated enum `DiscoverResource`, as its numeric code.
Code 0 is the unspecified sentinel (the tests write it as the literal `0`). -/
abbrev DiscoverResource := Int

/-- The unspecified sentinel of `DiscoverResource`. -/
def DiscoverResource_DISCOVER_RESOURCE_UNSPECIFIED : DiscoverResource := 0

/-- The member `DISCOVER_RESOURCE_SERVER`; all that is used of its code is that it is not
the sentinel. -/
def DiscoverResource_DISCOVER_RESOURCE_SERVER : DiscoverResource := 1

/-- Modelled from the spec: the generated enum `DiscoverStatus`. -/
inductive DiscoverStatus where
  | DISCOVER_STATUS_UNSPECIFIED
  | DISCOVER_STATUS_SUCCESS
  | DISCOVER_STATUS_SKIPPED
  | DISCOVER_STATUS_ERROR
  | DISCOVER_STATUS_ABORTED
  deriving DecidableEq, Repr

/-- Modelled from the spec: the generated enum `IntegrationEnrollKind`, as its numeric
code. -/
abbrev IntegrationEnrollKind := Int

/-- The member `INTEGRATION_ENROLL_KIND_AWS_OIDC`; its code is copied, never inspected. -/
def IntegrationEnrollKind_INTEGRATION_ENROLL_KIND_AWS_OIDC : IntegrationEnrollKind := 2

/-- Inbound `DiscoverMetadata`. -/
structure DiscoverMetadata where
  Id : String
  deriving DecidableEq, Repr

/-- Inbound `DiscoverResourceMetadata`. -/
structure DiscoverResourceMetadata where
  Resource : DiscoverResource
  deriving DecidableEq, Repr

/-- Inbound `DiscoverStepStatus`: the status and the error message (empty when absent). -/
structure DiscoverStepStatus where
  Status : DiscoverStatus
  Error : String
  deriving DecidableEq, Repr

/-- Inbound `IntegrationEnrollMetadata`. -/
structure IntegrationEnrollMetadata where
  Id : String
  Kind : IntegrationEnrollKind
  deriving DecidableEq, Repr

/-- Modelled from the spec: the tagged union `UsageEventOneOf`, with the variants the
tests and the spec name. -/
inductive UsageEventOneOf where
  | UiDiscoverStartedEvent (Metadata : DiscoverMetadata) (Status : DiscoverStepStatus)
  | UiDiscoverResourceSelectionEvent (Metadata : DiscoverMetadata)
      (Resource : DiscoverResourceMetadata) (Status : DiscoverStepStatus)
  | UiDiscoverAutoDiscoveredResourcesEvent (Metadata : DiscoverMetadata)
      (Resource : DiscoverResourceMetadata) (Status : DiscoverStepStatus) (ResourcesCount : Int)
  | UiIntegrationEnrollStartEvent (Metadata : IntegrationEnrollMetadata)
  deriving DecidableEq, Repr

/-- The common `Metadata.Id` of a usage event. -/
def UsageEventOneOf.metadataId : UsageEventOneOf → String
  | .UiDiscoverStartedEvent m _ => m.Id
  | .UiDiscoverResourceSelectionEvent m _ _ => m.Id
  | .UiDiscoverAutoDiscoveredResourcesEvent m _ _ _ => m.Id
  | .UiIntegrationEnrollStartEvent m => m.Id

end usageeventsv1

namespace prehogv1a

/-- Outbound `DiscoverMetadata`. -/
structure DiscoverMetadata where
  Id : String
  UserName : String
  Sso : Bool
  deriving DecidableEq, Repr

/-- Outbound `DiscoverResourceMetadata`. -/
structure DiscoverResourceMetadata where
  Resource : Int
  deriving DecidableEq, Repr

/-- Outbound `DiscoverStepStatus`. -/
structure DiscoverStepStatus where
  Status : usageeventsv1.DiscoverStatus
  Error : String
  deriving DecidableEq, Repr

/-- Modelled from the spec: outbound `IntegrationEnrollMetadata`. The tests set `Id`,
`UserName` and `Kind`; by section 6 every outbound metadata carries the user name and the
`Sso` flag in place of the raw identity, and the tests leave the flag at its zero value. -/
structure IntegrationEnrollMetadata where
  Id : String
  Kind : Int
  UserName : String
  Sso : Bool
  deriving DecidableEq, Repr

/-- The enum `EditorChangeStatus`. -/
inductive EditorChangeStatus where
  | EDITOR_CHANGE_STATUS_UNSPECIFIED
  | EDITOR_CHANGE_STATUS_ROLE_GRANTED
  | EDITOR_CHANGE_STATUS_ROLE_REMOVED
  deriving DecidableEq, Repr

/-- Modelled from the spec: the outbound `SubmitEventRequest`, mirror of the inbound
union together with the editor-change event. -/
inductive SubmitEventRequest where
  | UiDiscoverStartedEvent (Metadata : DiscoverMetadata) (Status : DiscoverStepStatus)
  | UiDiscoverResourceSelectionEvent (Metadata : DiscoverMetadata)
      (Resource : DiscoverResourceMetadata) (Status : DiscoverStepStatus)
  | UiDiscoverAutoDiscoveredResourcesEvent (Metadata : DiscoverMetadata)
      (Resource : DiscoverResourceMetadata) (Status : DiscoverStepStatus) (ResourcesCount : Int)
  | UiIntegrationEnrollStartEvent (Metadata : IntegrationEnrollMetadata)
  | EditorChangeEvent (UserName : String) (Status : EditorChangeStatus)
  deriving DecidableEq, Repr

end prehogv1a

namespace usagereporter

open usageeventsv1

/-- The struct `UserMetadata` built by the tests. -/
structure UserMetadata where
  Username : String
  IsSSO : Bool
  deriving DecidableEq, Repr

/-- Modelled from the spec: an `Anonymizable` is an outbound event that still carries the
plaintext user name; `Anonymize` turns it into the request that is submitted. -/
structure Anonymizable where
  event : prehogv1a.SubmitEventRequest
  deriving DecidableEq, Repr

/-- The value `&EditorChangeEvent{UserName: username, Status: status}`. -/
def EditorChangeEvent (UserName : String) (Status : prehogv1a.EditorChangeStatus) : Anonymizable :=
  ⟨.EditorChangeEvent UserName Status⟩

/-- Modelled from the spec: rule 1 of the converter, `Metadata.Id` must be non-empty. -/
def validateId (id : String) : Except GoError Unit :=
  if id = "" then .error (.BadParameter "missing id") else .ok ()

/-- Modelled from the spec: rule 2 of the converter, a resource field must not be the
unspecified sentinel. -/
def validateResource (r : DiscoverResourceMetadata) : Except GoError Unit :=
  if r.Resource = DiscoverResource_DISCOVER_RESOURCE_UNSPECIFIED then
    .error (.BadParameter "unknown/unspecified resource")
  else .ok ()

/-- Modelled from the spec: rule 3 of the converter, status ERROR needs an error message. -/
def validateStatus (s : DiscoverStepStatus) : Except GoError Unit :=
  if s.Status = DiscoverStatus.DISCOVER_STATUS_ERROR ∧ s.Error = "" then
    .error (.BadParameter "error status without message")
  else .ok ()

/-- Modelled from the spec: rule 4 of the converter, a counter must be at least 0. -/
def validateCount (n : Int) : Except GoError Unit :=
  if n < 0 then .error (.BadParameter "negative count") else .ok ()

/-- Outbound discover metadata: id copied, plaintext user name, `IsSSO` copied into `Sso`. -/
def discoverMetadataToPrehog (m : DiscoverMetadata) (userMD : UserMetadata) :
    prehogv1a.DiscoverMetadata :=
  { Id := m.Id, UserName := userMD.Username, Sso := userMD.IsSSO }

/-- Outbound step status: copied. -/
def discoverStatusToPrehog (s : DiscoverStepStatus) : prehogv1a.DiscoverStepStatus :=
  { Status := s.Status, Error := s.Error }

/-- Outbound resource metadata: copied. -/
def discoverResourceToPrehog (r : DiscoverResourceMetadata) : prehogv1a.DiscoverResourceMetadata :=
  { Resource := r.Resource }

/-- Modelled from the spec: `ConvertUsageEvent` (section 4.3), whose source is not among
the files. It dispatches on the variant, validates in the order id, resource, step
status, counter, and on success builds the outbound variant with all structural fields
copied; on a validation failure it returns the bad-parameter error and no event. -/
def ConvertUsageEvent (event : UsageEventOneOf) (userMD : UserMetadata) :
    Except GoError Anonymizable :=
  match event with
  | .UiDiscoverStartedEvent m st => do
    validateId m.Id
    validateStatus st
    pure ⟨.UiDiscoverStartedEvent (discoverMetadataToPrehog m userMD) (discoverStatusToPrehog st)⟩
  | .UiDiscoverResourceSelectionEvent m r st => do
    validateId m.Id
    validateResource r
    validateStatus st
    pure ⟨.UiDiscoverResourceSelectionEvent (discoverMetadataToPrehog m userMD)
      (discoverResourceToPrehog r) (discoverStatusToPrehog st)⟩
  | .UiDiscoverAutoDiscoveredResourcesEvent m r st n => do
    validateId m.Id
    validateResource r
    validateStatus st
    validateCount n
    pure ⟨.UiDiscoverAutoDiscoveredResourcesEvent (discoverMetadataToPrehog m userMD)
      (discoverResourceToPrehog r) (discoverStatusToPrehog st) n⟩
  | .UiIntegrationEnrollStartEvent m => do
    validateId m.Id
    pure ⟨.UiIntegrationEnrollStartEvent
      { Id := m.Id, Kind := m.Kind, UserName := userMD.Username, Sso := userMD.IsSSO }⟩

/-- Modelled from the spec: `Anonymize` (sections 4.3 and 4.4) replaces the user name by the
token the anonymizer computes for it and copies everything else. The anonymizer is the
keyed one-way function `AnonymizeString`, taken as a parameter. -/
def Anonymizable.Anonymize (a : Anonymizable) (AnonymizeString : String → String) :
    prehogv1a.SubmitEventRequest :=
  match a.event with
  | .UiDiscoverStartedEvent m st =>
    .UiDiscoverStartedEvent { m with UserName := AnonymizeString m.UserName } st
  | .UiDiscoverResourceSelectionEvent m r st =>
    .UiDiscoverResourceSelectionEvent { m with UserName := AnonymizeString m.UserName } r st
  | .UiDiscoverAutoDiscoveredResourcesEvent m r st n =>
    .UiDiscoverAutoDiscoveredResourcesEvent { m with UserName := AnonymizeString m.UserName } r st n
  | .UiIntegrationEnrollStartEvent m =>
    .UiIntegrationEnrollStartEvent { m with UserName := AnonymizeString m.UserName }
  | .EditorChangeEvent u st => .EditorChangeEvent (AnonymizeString u) st

/-- Modelled from the spec: `Diff` of the role-diff analyzer (section 4.5), whose source is
not among the files. GRANTED iff the editor role is absent from `prevRoles` and present in
`newRoles`, REMOVED iff present in `prevRoles` and absent from `newRoles`, otherwise no
status. A nil slice is the empty list. -/
def Diff (prevRoles newRoles : List String) : Option prehogv1a.EditorChangeStatus :=
  let prevEditor := prevRoles.contains PresetEditorRoleName
  let newEditor := newRoles.contains PresetEditorRoleName
  if !prevEditor && newEditor then some .EDITOR_CHANGE_STATUS_ROLE_GRANTED
  else if prevEditor && !newEditor then some .EDITOR_CHANGE_STATUS_ROLE_REMOVED
  else none

/-- Modelled from the spec: `EmitEditorChangeEvent` (section 4.5), whose source is not among
the files. It computes the diff; if a status results it calls the submit callback once,
with the one event built from `username` and the status; otherwise it does not call it.
The callback is a state transformer on whatever state `σ` the caller keeps. -/
def EmitEditorChangeEvent {σ : Type} (username : String) (prevRoles newRoles : List String)
    (submitEvent : List Anonymizable → σ → σ) : σ → σ :=
  match Diff prevRoles newRoles with
  | some status => submitEvent [EditorChangeEvent username status]
  | none => id

/-- The callback of `TestEmitEditorChangeEvent`: appends its arguments to
`submittedEvents`. -/
def mockSubmit (a : List Anonymizable) (submittedEvents : List Anonymizable) : List Anonymizable :=
  submittedEvents ++ a

/-- A callback that records every invocation with its argument list. -/
def recordSubmit (a : List Anonymizable) (calls : List (List Anonymizable)) :
    List (List Anonymizable) :=
  calls ++ [a]

end usagereporter

end Teleport

/-! ## The test tables of `usagereporter_test.go` -/

namespace Teleport

namespace usagereporter

open usageeventsv1

/-- A row of the table of `TestEmitEditorChangeEvent`; `expectedStatus` is the zero value
`EDITOR_CHANGE_STATUS_UNSPECIFIED` where the table leaves it out. -/
structure EditorChangeTest where
  name : String
  username : String
  prevRoles : List String
  newRoles : List String
  expectedStatus : prehogv1a.EditorChangeStatus
  deriving DecidableEq, Repr

/-- The table of `TestEmitEditorChangeEvent`. -/
def editorChangeTests : List EditorChangeTest :=
  [ ⟨"Role is granted to user", "user1", ["role1", "role2"],
      ["role1", "role2", PresetEditorRoleName], .EDITOR_CHANGE_STATUS_ROLE_GRANTED⟩,
    ⟨"Role is removed from user", "user2", ["role1", "role2", PresetEditorRoleName],
      ["role1", "role2"], .EDITOR_CHANGE_STATUS_ROLE_REMOVED⟩,
    ⟨"Role remains the same", "user3", ["role1", "role2", PresetEditorRoleName],
      ["role1", "role2", PresetEditorRoleName], .EDITOR_CHANGE_STATUS_UNSPECIFIED⟩,
    ⟨"Role is not granted or removed", "user4", ["role1", "role2"], ["role1", "role2"],
      .EDITOR_CHANGE_STATUS_UNSPECIFIED⟩,
    ⟨"User is granted the editor role but had other roles", "user5", ["role1", "role2"],
      ["role1", "role2", PresetEditorRoleName], .EDITOR_CHANGE_STATUS_ROLE_GRANTED⟩,
    ⟨"User is removed from the editor role but still has other roles", "user6",
      ["role1", "role2", PresetEditorRoleName], ["role1", "role2"],
      .EDITOR_CHANGE_STATUS_ROLE_REMOVED⟩,
    ⟨"No previous roles, editor role granted", "user7", [], [PresetEditorRoleName],
      .EDITOR_CHANGE_STATUS_ROLE_GRANTED⟩,
    ⟨"Only had editor role, role removed", "user8", [PresetEditorRoleName], [],
      .EDITOR_CHANGE_STATUS_ROLE_REMOVED⟩,
    ⟨"Nil roles", "user9", [], [], .EDITOR_CHANGE_STATUS_UNSPECIFIED⟩,
    ⟨"Granted multiple roles, including editor", "user10", ["role1", "role2"],
      ["role1", "role2", "role3", PresetEditorRoleName], .EDITOR_CHANGE_STATUS_ROLE_GRANTED⟩,
    ⟨"Removed from multiple roles, including editor", "user11",
      ["role1", "role2", "role3", PresetEditorRoleName], ["role1", "role2"],
      .EDITOR_CHANGE_STATUS_ROLE_REMOVED⟩ ]

/-- The body of a subtest of `TestEmitEditorChangeEvent`: whether its assertions hold. -/
def EditorChangeTest.passes (tc : EditorChangeTest) : Bool :=
  let submittedEvents := EmitEditorChangeEvent tc.username tc.prevRoles tc.newRoles mockSubmit []
  if tc.expectedStatus = .EDITOR_CHANGE_STATUS_ROLE_GRANTED ∨
      tc.expectedStatus = .EDITOR_CHANGE_STATUS_ROLE_REMOVED then
    match submittedEvents with
    | [] => false
    | ev :: _ =>
      match ev.event with
      | .EditorChangeEvent u st => st = tc.expectedStatus && u = tc.username
      | _ => false
  else submittedEvents.isEmpty

/-- A row of the table of `TestConvertUsageEvent`: `expected = none` where the row checks
for a bad-parameter error, the expected request otherwise. -/
structure ConvertTest where
  name : String
  event : UsageEventOneOf
  identityUsername : String
  isSSOUser : Bool
  expected : Option prehogv1a.SubmitEventRequest

/-- The table of `TestConvertUsageEvent`; `token` is `anonymizer.AnonymizeString("myuser")`. -/
def convertTests (token : String) : List ConvertTest :=
  [ ⟨"discover started event",
      .UiDiscoverStartedEvent ⟨"someid"⟩ ⟨.DISCOVER_STATUS_SUCCESS, ""⟩, "myuser", false,
      some (.UiDiscoverStartedEvent ⟨"someid", token, false⟩ ⟨.DISCOVER_STATUS_SUCCESS, ""⟩)⟩,
    ⟨"discover resource selection event",
      .UiDiscoverResourceSelectionEvent ⟨"someid"⟩ ⟨DiscoverResource_DISCOVER_RESOURCE_SERVER⟩
        ⟨.DISCOVER_STATUS_SUCCESS, ""⟩, "myuser", false,
      some (.UiDiscoverResourceSelectionEvent ⟨"someid", token, false⟩
        ⟨DiscoverResource_DISCOVER_RESOURCE_SERVER⟩ ⟨.DISCOVER_STATUS_SUCCESS, ""⟩)⟩,
    ⟨"error when discover metadata doesn't have id",
      .UiDiscoverResourceSelectionEvent ⟨""⟩ ⟨DiscoverResource_DISCOVER_RESOURCE_SERVER⟩
        ⟨.DISCOVER_STATUS_SUCCESS, ""⟩, "myuser", false, none⟩,
    ⟨"error when discover metadata resource",
      .UiDiscoverResourceSelectionEvent ⟨"someid"⟩ ⟨0⟩ ⟨.DISCOVER_STATUS_SUCCESS, ""⟩,
      "myuser", false, none⟩,
    ⟨"error when discover has stepStatus=ERROR but no error message",
      .UiDiscoverResourceSelectionEvent ⟨"someid"⟩ ⟨DiscoverResource_DISCOVER_RESOURCE_SERVER⟩
        ⟨.DISCOVER_STATUS_ERROR, ""⟩, "myuser", false, none⟩,
    ⟨"when discover has resources count and its values is zero: no error",
      .UiDiscoverAutoDiscoveredResourcesEvent ⟨"someid"⟩
        ⟨DiscoverResource_DISCOVER_RESOURCE_SERVER⟩ ⟨.DISCOVER_STATUS_SUCCESS, ""⟩ 0,
      "myuser", false,
      some (.UiDiscoverAutoDiscoveredResourcesEvent ⟨"someid", token, false⟩
        ⟨DiscoverResource_DISCOVER_RESOURCE_SERVER⟩ ⟨.DISCOVER_STATUS_SUCCESS, ""⟩ 0)⟩,
    ⟨"when discover has resources count and its values is positive: no error",
      .UiDiscoverAutoDiscoveredResourcesEvent ⟨"someid"⟩
        ⟨DiscoverResource_DISCOVER_RESOURCE_SERVER⟩ ⟨.DISCOVER_STATUS_SUCCESS, ""⟩ 2,
      "myuser", false,
      some (.UiDiscoverAutoDiscoveredResourcesEvent ⟨"someid", token, false⟩
        ⟨DiscoverResource_DISCOVER_RESOURCE_SERVER⟩ ⟨.DISCOVER_STATUS_SUCCESS, ""⟩ 2)⟩,
    ⟨"when discover has resources count and its values is negative: bad parameter error",
      .UiDiscoverAutoDiscoveredResourcesEvent ⟨"someid"⟩
        ⟨DiscoverResource_DISCOVER_RESOURCE_SERVER⟩ ⟨.DISCOVER_STATUS_SUCCESS, ""⟩ (-2),
      "myuser", false, none⟩,
    ⟨"discover started event with sso user",
      .UiDiscoverStartedEvent ⟨"someid"⟩ ⟨.DISCOVER_STATUS_SUCCESS, ""⟩, "myuser", true,
      some (.UiDiscoverStartedEvent ⟨"someid", token, true⟩ ⟨.DISCOVER_STATUS_SUCCESS, ""⟩)⟩,
    ⟨"integration enroll started event",
      .UiIntegrationEnrollStartEvent
        ⟨"someid", IntegrationEnrollKind_INTEGRATION_ENROLL_KIND_AWS_OIDC⟩, "myuser", false,
      some (.UiIntegrationEnrollStartEvent
        ⟨"someid", IntegrationEnrollKind_INTEGRATION_ENROLL_KIND_AWS_OIDC, token, false⟩)⟩ ]

/-- The body of a subtest of `TestConvertUsageEvent`: whether its assertions hold. -/
def ConvertTest.passes (tt : ConvertTest) (AnonymizeString : String → String) : Bool :=
  match ConvertUsageEvent tt.event ⟨tt.identityUsername, tt.isSSOUser⟩, tt.expected with
  | .error err, none => err.IsBadParameter
  | .ok usageEvent, some expected => usageEvent.Anonymize AnonymizeString = expected
  | _, _ => false

end usagereporter

end Teleport

/-! ## `DiscardAuditLog` -/

namespace Teleport

namespace events

/-- `DiscardAuditLog.EmitAuditEvent`: returns nil and does nothing else. -/
def DiscardAuditLog.EmitAuditEvent (_ctx : Context) (_event : AuditEvent) :
    Option GoError × List Effect :=
  (none, [])

end events

/-! ## Views of usage events, used to state what the converter checks and copies -/

namespace usageeventsv1

/-- The resource field of a usage event, for the variants that carry one. -/
def UsageEventOneOf.resource : UsageEventOneOf → Option DiscoverResourceMetadata
  | .UiDiscoverResourceSelectionEvent _ r _ => some r
  | .UiDiscoverAutoDiscoveredResourcesEvent _ r _ _ => some r
  | _ => none

/-- The step status of a usage event, for the discover variants. -/
def UsageEventOneOf.stepStatus : UsageEventOneOf → Option DiscoverStepStatus
  | .UiDiscoverStartedEvent _ st => some st
  | .UiDiscoverResourceSelectionEvent _ _ st => some st
  | .UiDiscoverAutoDiscoveredResourcesEvent _ _ st _ => some st
  | .UiIntegrationEnrollStartEvent _ => none

/-- The resources counter of a usage event, for the variant that carries one. -/
def UsageEventOneOf.resourcesCount : UsageEventOneOf → Option Int
  | .UiDiscoverAutoDiscoveredResourcesEvent _ _ _ n => some n
  | _ => none

/-- The enrollment kind of a usage event, for the integration variant. -/
def UsageEventOneOf.kind : UsageEventOneOf → Option IntegrationEnrollKind
  | .UiIntegrationEnrollStartEvent m => some m.Kind
  | _ => none

/-- Modelled from the spec: the validation rules 1 to 4 of section 4.3 as a predicate on the
inbound event: non-empty id, specified resource, an error message whenever the step status
is ERROR, a counter that is at least 0; each rule applies where the variant has the field. -/
def UsageEventOneOf.valid (e : UsageEventOneOf) : Bool :=
  e.metadataId != "" &&
  (match e.resource with
    | some r => r.Resource != DiscoverResource_DISCOVER_RESOURCE_UNSPECIFIED
    | none => true) &&
  (match e.stepStatus with
    | some st => !(st.Status == DiscoverStatus.DISCOVER_STATUS_ERROR && st.Error == "")
    | none => true) &&
  (match e.resourcesCount with
    | some n => decide (0 ≤ n)
    | none => true)

end usageeventsv1

namespace prehogv1a

/-- The user name of an outbound event. -/
def SubmitEventRequest.userName : SubmitEventRequest → String
  | .UiDiscoverStartedEvent m _ => m.UserName
  | .UiDiscoverResourceSelectionEvent m _ _ => m.UserName
  | .UiDiscoverAutoDiscoveredResourcesEvent m _ _ _ => m.UserName
  | .UiIntegrationEnrollStartEvent m => m.UserName
  | .EditorChangeEvent u _ => u

/-- The `Metadata.Id` of an outbound event that has metadata. -/
def SubmitEventRequest.metadataId : SubmitEventRequest → Option String
  | .UiDiscoverStartedEvent m _ => some m.Id
  | .UiDiscoverResourceSelectionEvent m _ _ => some m.Id
  | .UiDiscoverAutoDiscoveredResourcesEvent m _ _ _ => some m.Id
  | .UiIntegrationEnrollStartEvent m => some m.Id
  | .EditorChangeEvent _ _ => none

/-- The `Metadata.Sso` flag of an outbound event that has metadata. -/
def SubmitEventRequest.metadataSso : SubmitEventRequest → Option Bool
  | .UiDiscoverStartedEvent m _ => some m.Sso
  | .UiDiscoverResourceSelectionEvent m _ _ => some m.Sso
  | .UiDiscoverAutoDiscoveredResourcesEvent m _ _ _ => some m.Sso
  | .UiIntegrationEnrollStartEvent m => some m.Sso
  | .EditorChangeEvent _ _ => none

/-- The resource field of an outbound event, for the variants that carry one. -/
def SubmitEventRequest.resource : SubmitEventRequest → Option DiscoverResourceMetadata
  | .UiDiscoverResourceSelectionEvent _ r _ => some r
  | .UiDiscoverAutoDiscoveredResourcesEvent _ r _ _ => some r
  | _ => none

/-- The step status of an outbound event, for the discover variants. -/
def SubmitEventRequest.stepStatus : SubmitEventRequest → Option DiscoverStepStatus
  | .UiDiscoverStartedEvent _ st => some st
  | .UiDiscoverResourceSelectionEvent _ _ st => some st
  | .UiDiscoverAutoDiscoveredResourcesEvent _ _ st _ => some st
  | _ => none

/-- The resources counter of an outbound event, for the variant that carries one. -/
def SubmitEventRequest.resourcesCount : SubmitEventRequest → Option Int
  | .UiDiscoverAutoDiscoveredResourcesEvent _ _ _ n => some n
  | _ => none

/-- The enrollment kind of an outbound event, for the integration variant. -/
def SubmitEventRequest.kind : SubmitEventRequest → Option Int
  | .UiIntegrationEnrollStartEvent m => some m.Kind
  | _ => none

/-- Which variant of the union an outbound event is. -/
def SubmitEventRequest.variant : SubmitEventRequest → String
  | .UiDiscoverStartedEvent _ _ => "UiDiscoverStartedEvent"
  | .UiDiscoverResourceSelectionEvent _ _ _ => "UiDiscoverResourceSelectionEvent"
  | .UiDiscoverAutoDiscoveredResourcesEvent _ _ _ _ => "UiDiscoverAutoDiscoveredResourcesEvent"
  | .UiIntegrationEnrollStartEvent _ => "UiIntegrationEnrollStartEvent"
  | .EditorChangeEvent _ _ => "EditorChangeEvent"

end prehogv1a

namespace usageeventsv1

/-- Which variant of the union an inbound event is. -/
def UsageEventOneOf.variant : UsageEventOneOf → String
  | .UiDiscoverStartedEvent _ _ => "UiDiscoverStartedEvent"
  | .UiDiscoverResourceSelectionEvent _ _ _ => "UiDiscoverResourceSelectionEvent"
  | .UiDiscoverAutoDiscoveredResourcesEvent _ _ _ _ => "UiDiscoverAutoDiscoveredResourcesEvent"
  | .UiIntegrationEnrollStartEvent _ => "UiIntegrationEnrollStartEvent"

end usageeventsv1

/-! ## Go maps and slices -/

/-- A Go `map[string]string`: `none` is the nil map, otherwise the finite set of entries
with pairwise distinct keys. -/
abbrev GoMap := Option (AList (fun _ : String => String))

/-- The builtin `len` on a map: 0 for the nil map, the number of entries otherwise. -/
def GoMap.len : GoMap → Nat
  | none => 0
  | some m => m.entries.length

/-- A Go slice value: `none` is the nil slice, otherwise the elements in order. -/
abbrev Slice (α : Type) := Option (List α)

/-- The builtin `append(s, x)`: the result is never nil. -/
def Slice.append {α : Type} (s : Slice α) (x : α) : Slice α :=
  some (s.getD [] ++ [x])

/-! ## `lib/service/servicecfg/plugins.go` -/

namespace servicecfg

/-- The struct `PluginsConfig`. -/
structure PluginsConfig where
  Enabled : Bool
  OpsgenieAPIKey : String
  Plugins : GoMap

/-- `PluginsConfig.IsEmpty`: `len(d.Plugins) == 0`. -/
def PluginsConfig.IsEmpty (d : PluginsConfig) : Bool :=
  GoMap.len d.Plugins == 0

end servicecfg

/-! ## `lib/web/ui/ui_resource.go` -/

namespace types

/-- A value behind the interface `types.Server`, as the getters that are read. -/
structure Server where
  GetKind : String
  GetName : String
  GetHostname : String
  GetAddr : String
  GetAllLabels : GoMap

/-- A value behind the interface `types.DatabaseServer`, as the getters that are read. -/
structure DatabaseServer where
  GetKind : String
  GetName : String
  GetAllLabels : GoMap

/-- A value behind the interface `types.AppServer`, as the getters that are read. -/
structure AppServer where
  GetKind : String
  GetName : String
  GetAllLabels : GoMap

/-- A value behind the interface `types.WindowsDesktop`, as the getters that are read. -/
structure WindowsDesktop where
  GetKind : String
  GetName : String
  GetAddr : String
  GetAllLabels : GoMap

/-- A `types.ResourceWithLabels` value as the type switch of `MakeUIResource` sees it: the
first of the four cases its dynamic type satisfies, or none of them; in the latter case
`goType` is what `%T` prints for it (`<nil>` for the nil interface). -/
inductive ResourceWithLabels where
  | Server (r : Server)
  | DatabaseServer (r : DatabaseServer)
  | AppServer (r : AppServer)
  | WindowsDesktop (r : WindowsDesktop)
  | Other (goType : String)

/-- Whether the resource falls under one of the four cases of the type switch. -/
def ResourceWithLabels.isKnown : ResourceWithLabels → Bool
  | .Other _ => false
  | _ => true

end types

namespace ui

/-- The struct `UnifiedResource`; `Label` is the label type of the package, declared outside
these files. -/
structure UnifiedResource (Label : Type) where
  Kind : String
  Name : String
  Labels : Slice Label
  Addr : String
  SSHLogins : Slice String
  Logins : Slice String

/-- The loop of `MakeUIResource` over the remaining resources, `uiResources` being the
slice built so far. `makeLabels` is the helper of the package, declared outside these
files. -/
def MakeUIResource.loop {Label : Type} (makeLabels : GoMap → Slice Label) :
    List types.ResourceWithLabels → Slice (UnifiedResource Label) →
    Slice (UnifiedResource Label) × Option GoError
  | [], uiResources => (uiResources, none)
  | resource :: rest, uiResources =>
    match resource with
    | .Server r =>
      MakeUIResource.loop makeLabels rest (Slice.append uiResources
        { Kind := r.GetKind, Name := r.GetHostname, Labels := makeLabels r.GetAllLabels,
          Addr := r.GetAddr, SSHLogins := none, Logins := none })
    | .DatabaseServer r =>
      MakeUIResource.loop makeLabels rest (Slice.append uiResources
        { Kind := r.GetKind, Name := r.GetName, Labels := makeLabels r.GetAllLabels,
          Addr := "", SSHLogins := none, Logins := none })
    | .AppServer r =>
      MakeUIResource.loop makeLabels rest (Slice.append uiResources
        { Kind := r.GetKind, Name := r.GetName, Labels := makeLabels r.GetAllLabels,
          Addr := "", SSHLogins := none, Logins := none })
    | .WindowsDesktop r =>
      MakeUIResource.loop makeLabels rest (Slice.append uiResources
        { Kind := r.GetKind, Name := r.GetName, Labels := makeLabels r.GetAllLabels,
          Addr := r.GetAddr, SSHLogins := none, Logins := none })
    | .Other goType =>
      (none, some (GoError.Errorf ("UI Resource has unknown type: " ++ goType)))

/-- `MakeUIResource`: starts from the empty, non-nil slice and runs the loop. The cluster
name and the access checker are parameters that the body does not read. -/
def MakeUIResource {Label AccessChecker : Type} (makeLabels : GoMap → Slice Label)
    (_clusterName : String) (resources : List types.ResourceWithLabels)
    (_accessChecker : AccessChecker) : Slice (UnifiedResource Label) × Option GoError :=
  MakeUIResource.loop makeLabels resources (some [])

end ui

end Teleport

/-! ## The entry specified for a resource -/

namespace Teleport

namespace ui

/-- The entry that the projection is specified to contain for a resource, written from the
statement of the projection, not from the loop: kind and labels of the resource, the
hostname as name for a Server and the resource name for the other three kinds, the address
for a Server and a WindowsDesktop and the empty string for a DatabaseServer and an
AppServer, both login lists left nil; no entry for any other resource. -/
def specUIResource {Label : Type} (makeLabels : GoMap → Slice Label) :
    types.ResourceWithLabels → Option (UnifiedResource Label)
  | .Server r => some ⟨r.GetKind, r.GetHostname, makeLabels r.GetAllLabels, r.GetAddr, none, none⟩
  | .DatabaseServer r => some ⟨r.GetKind, r.GetName, makeLabels r.GetAllLabels, "", none, none⟩
  | .AppServer r => some ⟨r.GetKind, r.GetName, makeLabels r.GetAllLabels, "", none, none⟩
  | .WindowsDesktop r =>
    some ⟨r.GetKind, r.GetName, makeLabels r.GetAllLabels, r.GetAddr, none, none⟩
  | .Other _ => none

end ui

end Teleport

/-! ## A sample resource list -/

namespace Teleport

namespace ui

/-- A list with one resource of each of the four kinds. -/
def sampleResources : List types.ResourceWithLabels :=
  [ .Server ⟨"node", "uuid-1", "host-1", "10.0.0.1:3022", none⟩,
    .DatabaseServer ⟨"db_server", "postgres", none⟩,
    .AppServer ⟨"app_server", "grafana", none⟩,
    .WindowsDesktop ⟨"windows_desktop", "win-1", "10.0.0.2:3389", none⟩ ]

/-- A stand-in for the label helper: one label per call, the number of entries of the map. -/
def sampleMakeLabels (m : GoMap) : Slice Nat := some [GoMap.len m]

end ui

end Teleport

/-! # Theorems -/

namespace Teleport

namespace events

/-! ## Shared lemmas on sequential runs -/

theorem applyOp_new (addr : Nat) (op : Op) :
    ∃ es, applyOp (NewDiscardStream addr) op =
        .ok (if op.completes then completedStream addr else NewDiscardStream addr, es) ∧
      es.filter Effect.isClose = if op.completes then [Effect.closeChan addr] else [] := by
  cases op <;>
    simp [applyOp, Op.completes, NewDiscardStream, completedStream, DiscardStream.SetupEvent,
      DiscardStream.RecordEvent, DiscardStream.Write, DiscardStream.Status, DiscardStream.Done,
      DiscardStream.Close, DiscardStream.Complete, closeChan, Effect.isClose]

theorem applyOp_completed (d : DiscardStream) (h : d.completed = true) (op : Op) :
    ∃ es, applyOp d op = .ok (d, es) ∧ es.filter Effect.isClose = [] := by
  cases d with
  | mk c dn =>
    simp only at h
    subst h
    cases op <;>
      simp [applyOp, DiscardStream.SetupEvent,
        DiscardStream.RecordEvent, DiscardStream.Write, DiscardStream.Status, DiscardStream.Done,
        DiscardStream.Close, DiscardStream.Complete, closeChan, Effect.isClose]

theorem runOps_completed (d : DiscardStream) (h : d.completed = true) (ops : List Op) :
    ∃ es, runOps d ops = .ok (d, es) ∧ es.filter Effect.isClose = [] := by
  induction ops with
  | nil => exact ⟨[], rfl, rfl⟩
  | cons op ops ih =>
    obtain ⟨e1, h1, c1⟩ := applyOp_completed d h op
    obtain ⟨e2, h2, c2⟩ := ih
    refine ⟨e1 ++ e2, ?_, ?_⟩
    · simp [runOps, h1, h2]
    · simp [List.filter_append, c1, c2]

theorem runOps_new (addr : Nat) (ops : List Op) :
    ∃ es, runOps (NewDiscardStream addr) ops =
        .ok (if ops.any Op.completes then completedStream addr else NewDiscardStream addr, es) ∧
      es.filter Effect.isClose = if ops.any Op.completes then [Effect.closeChan addr] else [] := by
  induction ops with
  | nil => exact ⟨[], rfl, rfl⟩
  | cons op ops ih =>
    obtain ⟨e1, h1, c1⟩ := applyOp_new addr op
    by_cases hc : op.completes = true
    · obtain ⟨e2, h2, c2⟩ := runOps_completed (completedStream addr) rfl ops
      refine ⟨e1 ++ e2, ?_, ?_⟩
      · simp [runOps, h1, hc, h2]
      · simp [List.filter_append, c1, c2, hc]
    · obtain ⟨e2, h2, c2⟩ := ih
      simp only [Bool.not_eq_true] at hc
      refine ⟨e1 ++ e2, ?_, ?_⟩
      · simp [runOps, h1, hc, h2]
      · simp [List.filter_append, c1, c2, hc]

/-- A goroutine that runs alone takes the three atomic actions of `Complete` in program
order: its run is the sequential `Complete`. -/
theorem runSchedule_single (d : DiscardStream) (ctx : Context) :
    runSchedule (Config.init d 1) [0, 0, 0] =
      match d.Complete ctx with
      | .error p => .error p
      | .ok r => .ok { stream := r.stream, pcs := [Pc.returned r.ret], effects := r.effects } := by
  obtain ⟨c, dn⟩ := d
  cases c <;> cases dn with
  | none => rfl
  | some ch =>
    obtain ⟨a, cl⟩ := ch
    cases cl <;> rfl

/-- Two goroutines that call `Complete` one after the other, without overlap, both return
nil and `done` is closed once. -/
theorem runSchedule_no_overlap (addr : Nat) :
    runSchedule (Config.init (NewDiscardStream addr) 2) [0, 0, 0, 1, 1] =
      .ok { stream := completedStream addr, pcs := [Pc.returned none, Pc.returned none],
            effects := [Effect.closeChan addr] } := rfl

/-! ## The discard stream -/

/-- C1: `RecordEvent` returns the bad-parameter error "stream is closed" exactly when the
completed flag is set, and nil otherwise; on a stream obtained from `NewDiscardStream` by
any sequence of calls the flag is set exactly when one of the calls was `Complete` or
`Close`, so the error is returned iff `Complete` (or `Close`) has already been called. -/
theorem RecordEvent_closed_iff_completed (addr : Nat) (ops : List Op) (d0 : DiscardStream)
    (ctx : Context) (event : AuditEvent) :
    (((d0.RecordEvent ctx event).ret = some (GoError.BadParameter "stream is closed") ↔
        d0.completed = true) ∧
      ((d0.RecordEvent ctx event).ret = none ↔ d0.completed = false)) ∧
    ∃ d es, runOps (NewDiscardStream addr) ops = .ok (d, es) ∧
      d.completed = ops.any Op.completes ∧
      ((d.RecordEvent ctx event).ret = some (GoError.BadParameter "stream is closed") ↔
        ops.any Op.completes = true) ∧
      ((d.RecordEvent ctx event).ret = none ↔ ops.any Op.completes = false) := by
  constructor
  · cases h : d0.completed <;> simp [DiscardStream.RecordEvent, h, streamClosed]
  · obtain ⟨es, hrun, -⟩ := runOps_new addr ops
    refine ⟨_, es, hrun, ?_⟩
    cases h : ops.any Op.completes <;>
      simp [DiscardStream.RecordEvent, NewDiscardStream, completedStream, streamClosed]

/-- C3, refuted for arbitrary struct values: on the zero-value `DiscardStream` (flag false,
`done` nil) the first `Complete` panics with "close of nil channel" and returns nothing;
and on a struct with the flag set and `done` still open two `Complete` calls return nil
but `done` is never closed. -/
theorem Complete_zero_value_counterexample :
    DiscardStream.Complete { completed := false, done := none } Context.background =
      .error Panic.closeOfNilChannel ∧
    (¬ ∃ r, DiscardStream.Complete { completed := false, done := none } Context.background =
      .ok r) ∧
    DiscardStream.Complete { completed := true, done := some { addr := 0, closed := false } }
        Context.background =
      .ok { ret := none,
            stream := { completed := true, done := some { addr := 0, closed := false } },
            effects := [] } := by
  refine ⟨rfl, ?_, rfl⟩
  rintro ⟨r, hr⟩
  cases hr

/-- C3, amended: in every state in which `done` is allocated and is closed iff the
completed flag is set, which are the states a stream obtained from `NewDiscardStream` is in
after any sequence of calls (Open or Completed), two `Complete` calls in a row both return
nil; the first leaves the stream completed with `done` closed, closing it only if it was
open, the second leaves exactly that state and performs no effect (it does not close `done`
again); over the whole history of a stream from the constructor `done` has been closed
once. -/
theorem Complete_idempotent (addr : Nat) (ops : List Op) (ch : Chan) (ctx1 ctx2 : Context) :
    (∃ d es r1 r2, runOps (NewDiscardStream addr) ops = .ok (d, es) ∧
      d.Complete ctx1 = .ok r1 ∧ r1.stream.Complete ctx2 = .ok r2 ∧
      r1.ret = none ∧ r2.ret = none ∧
      r1.stream = { completed := true, done := some { addr := addr, closed := true } } ∧
      r2.stream = r1.stream ∧ r2.effects = [] ∧
      (es ++ r1.effects ++ r2.effects).filter Effect.isClose = [Effect.closeChan addr]) ∧
    (∃ r1 r2, DiscardStream.Complete { completed := ch.closed, done := some ch } ctx1 = .ok r1 ∧
      r1.stream.Complete ctx2 = .ok r2 ∧
      r1.ret = none ∧ r2.ret = none ∧
      r1.stream = { completed := true, done := some { addr := ch.addr, closed := true } } ∧
      r1.effects = (if ch.closed then [] else [Effect.closeChan ch.addr]) ∧
      r2.stream = r1.stream ∧ r2.effects = []) := by
  constructor
  · obtain ⟨es, hrun, hcl⟩ := runOps_new addr ops
    cases h : ops.any Op.completes
    · simp only [h, Bool.false_eq_true, if_false] at hrun hcl
      exact ⟨_, es, ⟨none, completedStream addr, [Effect.closeChan addr]⟩,
        ⟨none, completedStream addr, []⟩, hrun, rfl, rfl, rfl, rfl, rfl, rfl, rfl,
        by simp [List.filter_append, hcl, Effect.isClose]⟩
    · simp only [h, if_true] at hrun hcl
      exact ⟨_, es, ⟨none, completedStream addr, []⟩,
        ⟨none, completedStream addr, []⟩, hrun, rfl, rfl, rfl, rfl, rfl, rfl, rfl,
        by simp [hcl]⟩
  · obtain ⟨a, c⟩ := ch
    cases c
    · exact ⟨⟨none, completedStream a, [Effect.closeChan a]⟩, ⟨none, completedStream a, []⟩,
        rfl, rfl, rfl, rfl, rfl, rfl, rfl, rfl⟩
    · exact ⟨⟨none, completedStream a, []⟩, ⟨none, completedStream a, []⟩,
        rfl, rfl, rfl, rfl, rfl, rfl, rfl, rfl⟩

/-- C4: for every payload `p`, on a stream on which `Complete` (or `Close`) has been called,
whatever was called before and after it, `Write(p)` returns count 0 and the bad-parameter
error "stream is closed", performs no effect and leaves the flag and the channel as they
were. -/
theorem Write_after_Complete (addr : Nat) (ops1 ops2 : List Op) (ctx : Context) (p : List Byte) :
    (∃ d es, runOps (NewDiscardStream addr) (ops1 ++ Op.Complete ctx :: ops2) = .ok (d, es) ∧
      d.Write p = { ret := (0, some (GoError.BadParameter "stream is closed")), stream := d,
                    effects := [] }) ∧
    (∃ d es, runOps (NewDiscardStream addr) (ops1 ++ Op.Close ctx :: ops2) = .ok (d, es) ∧
      d.Write p = { ret := (0, some (GoError.BadParameter "stream is closed")), stream := d,
                    effects := [] }) := by
  constructor
  · obtain ⟨es, hrun, -⟩ := runOps_new addr (ops1 ++ Op.Complete ctx :: ops2)
    have h : (ops1 ++ Op.Complete ctx :: ops2).any Op.completes = true := by
      simp [Op.completes]
    rw [h] at hrun
    exact ⟨_, es, hrun, rfl⟩
  · obtain ⟨es, hrun, -⟩ := runOps_new addr (ops1 ++ Op.Close ctx :: ops2)
    have h : (ops1 ++ Op.Close ctx :: ops2).any Op.completes = true := by
      simp [Op.completes]
    rw [h] at hrun
    exact ⟨_, es, hrun, rfl⟩

/-- C5: any sequence of calls on a stream from `NewDiscardStream` runs without panic; in the
state reached `done` is the channel allocated by the constructor and it is closed iff the
completed flag is true; the close effects of the whole sequence are none when no
`Complete`/`Close` was called and a single close of `done` otherwise; and a further call
closes `done` exactly when it is a `Complete`/`Close` and none came before it, so the one
close is performed by the first `Complete`/`Close`. -/
theorem done_closed_iff_completed (addr : Nat) (ops : List Op) :
    ∃ d es, runOps (NewDiscardStream addr) ops = .ok (d, es) ∧
      (∃ ch, d.done = some ch ∧ ch.addr = addr ∧ (ch.closed = true ↔ d.completed = true)) ∧
      (es.filter Effect.isClose).length ≤ 1 ∧
      es.filter Effect.isClose = (if ops.any Op.completes then [Effect.closeChan addr] else []) ∧
      ∀ op : Op, ∃ d1 e1, applyOp d op = .ok (d1, e1) ∧
        e1.filter Effect.isClose =
          (if op.completes && !(ops.any Op.completes) then [Effect.closeChan addr] else []) := by
  obtain ⟨es, hrun, hcl⟩ := runOps_new addr ops
  refine ⟨_, es, hrun, ?_, ?_, hcl, ?_⟩
  · cases h : ops.any Op.completes <;> simp [NewDiscardStream, completedStream]
  · rw [hcl]; split <;> simp
  · intro op
    cases h : ops.any Op.completes
    · obtain ⟨e1, h1, c1⟩ := applyOp_new addr op
      exact ⟨_, e1, by simpa using h1, by simpa using c1⟩
    · obtain ⟨e1, h1, c1⟩ := applyOp_completed (completedStream addr) rfl op
      exact ⟨_, e1, by simpa using h1, by simpa using c1⟩

/-- C6: Completed is terminal. On a stream whose completed flag is true every single call
(`SetupEvent`, `RecordEvent`, `Write`, `Status`, `Done`, `Close`, `Complete`, with any
arguments) returns without panic and leaves the flag true, and so does every sequence of
calls. -/
theorem completed_terminal (d : DiscardStream) (h : d.completed = true) :
    (∀ op : Op, ∃ d1 es, applyOp d op = .ok (d1, es) ∧ d1.completed = true) ∧
    (∀ ops : List Op, ∃ d1 es, runOps d ops = .ok (d1, es) ∧ d1.completed = true) := by
  constructor
  · intro op
    obtain ⟨es, h1, -⟩ := applyOp_completed d h op
    exact ⟨d, es, h1, h⟩
  · intro ops
    obtain ⟨es, h1, -⟩ := runOps_completed d h ops
    exact ⟨d, es, h1, h⟩

theorem completed_terminal_witness :
    (completedStream 0).completed = true ∧
    ((∀ op : Op, ∃ d1 es, applyOp (completedStream 0) op = .ok (d1, es) ∧ d1.completed = true) ∧
     (∀ ops : List Op, ∃ d1 es, runOps (completedStream 0) ops = .ok (d1, es) ∧
        d1.completed = true)) :=
  ⟨rfl, completed_terminal (completedStream 0) rfl⟩

/-- C7: for every stream state (the zero value included) and every context, `Close` yields
what `Complete` yields on the same state with the same context: the same panic, or the same
returned error, resulting state and effects. -/
theorem Close_eq_Complete (d : DiscardStream) (ctx : Context) :
    d.Close ctx = d.Complete ctx := rfl

/-- C2, evaluated at the failing interleaving: two goroutines call `Complete` on a new
stream; both load the flag as false, the first closes `done`, and the close attempted by
the second panics with "close of closed channel". -/
theorem Complete_race_double_close (addr : Nat) :
    runSchedule (Config.init (NewDiscardStream addr) 2) [0, 1, 0, 1] =
      .error Panic.closeOfClosedChannel := rfl

/-- C8, refuted: `Complete` called with an already-cancelled context on a new stream returns
nil, not a cancellation error, and performs its side effect: `done` is closed and the stream
is completed. -/
theorem Complete_cancelled_ctx_counterexample :
    ∃ r, (NewDiscardStream 0).Complete ⟨some GoError.Canceled⟩ = .ok r ∧
      r.ret = none ∧ r.ret ≠ some GoError.Canceled ∧ r.stream.completed = true ∧
      r.stream ≠ NewDiscardStream 0 ∧ r.effects = [Effect.closeChan 0] :=
  ⟨⟨none, completedStream 0, [Effect.closeChan 0]⟩, rfl, rfl, by decide, rfl, by decide, rfl⟩

/-- C8, amended: no context-taking operation of the discard binding consults its context.
Each yields the same result, state and effects for any two contexts, cancelled or not;
none returns a cancellation error; and `Complete`/`Close` on an open stream complete it and
return nil whatever the context. -/
theorem context_ignored (ctx ctx1 : Context) (d : DiscardStream) (event : AuditEvent)
    (addr : Nat) (sid uploadID : String) :
    d.RecordEvent ctx event = d.RecordEvent ctx1 event ∧
    d.Complete ctx = d.Complete ctx1 ∧
    d.Close ctx = d.Close ctx1 ∧
    DiscardEmitter.EmitAuditEvent ctx event = DiscardEmitter.EmitAuditEvent ctx1 event ∧
    DiscardEmitter.CreateAuditStream addr ctx sid = DiscardEmitter.CreateAuditStream addr ctx1 sid ∧
    DiscardEmitter.ResumeAuditStream addr ctx sid uploadID =
      DiscardEmitter.ResumeAuditStream addr ctx1 sid uploadID ∧
    (d.RecordEvent ctx event).ret ≠ some GoError.Canceled ∧
    (DiscardEmitter.EmitAuditEvent ctx event).1 = none ∧
    (DiscardEmitter.CreateAuditStream addr ctx sid).2 = none ∧
    (DiscardEmitter.ResumeAuditStream addr ctx sid uploadID).2 = none ∧
    (NewDiscardStream addr).Complete ctx =
      .ok { ret := none, stream := completedStream addr, effects := [Effect.closeChan addr] } ∧
    (NewDiscardStream addr).Close ctx =
      .ok { ret := none, stream := completedStream addr, effects := [Effect.closeChan addr] } := by
  refine ⟨rfl, rfl, rfl, rfl, rfl, rfl, ?_, rfl, rfl, rfl, rfl, rfl⟩
  cases h : d.completed <;> simp [DiscardStream.RecordEvent, h, streamClosed]

end events

end Teleport

namespace Teleport

namespace usagereporter

open usageeventsv1

/-! ## The role-diff analyzer and the usage-event converter -/

theorem Diff_eq (prevRoles newRoles : List String) :
    Diff prevRoles newRoles =
      if PresetEditorRoleName ∉ prevRoles ∧ PresetEditorRoleName ∈ newRoles then
        some .EDITOR_CHANGE_STATUS_ROLE_GRANTED
      else if PresetEditorRoleName ∈ prevRoles ∧ PresetEditorRoleName ∉ newRoles then
        some .EDITOR_CHANGE_STATUS_ROLE_REMOVED
      else none := by
  by_cases hp : PresetEditorRoleName ∈ prevRoles <;>
    by_cases hn : PresetEditorRoleName ∈ newRoles <;>
    simp [Diff, hp, hn]

/-- C9: for every username and role lists (the nil slice being the empty list), with a
callback that records its invocations, `EmitEditorChangeEvent` makes exactly one call, with
the one event `EditorChangeEvent{username, ROLE_GRANTED}`, iff the editor role is absent
from `prevRoles` and present in `newRoles`; exactly one call with the one event
`EditorChangeEvent{username, ROLE_REMOVED}` iff it is present in `prevRoles` and absent
from `newRoles`; and no call iff the presence of the editor role is the same in both
lists. For an arbitrary callback the outcome is that single call or no call at all. -/
theorem EmitEditorChangeEvent_spec (username : String) (prevRoles newRoles : List String) :
    (EmitEditorChangeEvent username prevRoles newRoles recordSubmit [] =
        [[EditorChangeEvent username .EDITOR_CHANGE_STATUS_ROLE_GRANTED]] ↔
      (PresetEditorRoleName ∉ prevRoles ∧ PresetEditorRoleName ∈ newRoles)) ∧
    (EmitEditorChangeEvent username prevRoles newRoles recordSubmit [] =
        [[EditorChangeEvent username .EDITOR_CHANGE_STATUS_ROLE_REMOVED]] ↔
      (PresetEditorRoleName ∈ prevRoles ∧ PresetEditorRoleName ∉ newRoles)) ∧
    (EmitEditorChangeEvent username prevRoles newRoles recordSubmit [] = [] ↔
      (PresetEditorRoleName ∈ prevRoles ↔ PresetEditorRoleName ∈ newRoles)) ∧
    (∀ (σ : Type) (submitEvent : List Anonymizable → σ → σ) (s : σ),
      EmitEditorChangeEvent username prevRoles newRoles submitEvent s =
        if PresetEditorRoleName ∉ prevRoles ∧ PresetEditorRoleName ∈ newRoles then
          submitEvent [EditorChangeEvent username .EDITOR_CHANGE_STATUS_ROLE_GRANTED] s
        else if PresetEditorRoleName ∈ prevRoles ∧ PresetEditorRoleName ∉ newRoles then
          submitEvent [EditorChangeEvent username .EDITOR_CHANGE_STATUS_ROLE_REMOVED] s
        else s) := by
  by_cases hp : PresetEditorRoleName ∈ prevRoles <;>
    by_cases hn : PresetEditorRoleName ∈ newRoles <;>
    simp [EmitEditorChangeEvent, Diff_eq, hp, hn, recordSubmit, EditorChangeEvent]

/-- C10: for every variant and every `UserMetadata`, an event whose `Metadata.Id` is the
empty string is rejected with a bad-parameter error, whatever its other fields; the result
is the error alone, no outbound event. -/
theorem ConvertUsageEvent_missing_id (event : UsageEventOneOf) (userMD : UserMetadata)
    (h : event.metadataId = "") :
    ∃ err, ConvertUsageEvent event userMD = .error err ∧ err.IsBadParameter = true ∧
      err = GoError.BadParameter "missing id" := by
  refine ⟨GoError.BadParameter "missing id", ?_, rfl, rfl⟩
  cases event <;>
    simp only [UsageEventOneOf.metadataId] at h <;>
    simp [ConvertUsageEvent, validateId, h, bind, Except.bind]

theorem ConvertUsageEvent_missing_id_witness :
    (UsageEventOneOf.UiDiscoverResourceSelectionEvent ⟨""⟩
        ⟨DiscoverResource_DISCOVER_RESOURCE_SERVER⟩
        ⟨.DISCOVER_STATUS_SUCCESS, ""⟩).metadataId = "" ∧
    ∃ err, ConvertUsageEvent (UsageEventOneOf.UiDiscoverResourceSelectionEvent ⟨""⟩
        ⟨DiscoverResource_DISCOVER_RESOURCE_SERVER⟩
        ⟨.DISCOVER_STATUS_SUCCESS, ""⟩) ⟨"myuser", false⟩ = .error err ∧
      err.IsBadParameter = true ∧ err = GoError.BadParameter "missing id" :=
  ⟨rfl, ConvertUsageEvent_missing_id _ _ rfl⟩

end usagereporter

end Teleport

namespace Teleport

namespace usagereporter

/-! ## The modelled functions pass the tests of the repository -/

theorem editorChangeTests_pass : editorChangeTests.all EditorChangeTest.passes = true := by
  decide

theorem convertTests_pass (AnonymizeString : String → String) :
    (convertTests (AnonymizeString "myuser")).all
      (fun tt => tt.passes AnonymizeString) = true := by
  simp [convertTests, ConvertTest.passes, ConvertUsageEvent, validateId, validateResource,
    validateStatus, validateCount, bind, Except.bind, pure, Except.pure,
    Anonymizable.Anonymize, discoverMetadataToPrehog, discoverStatusToPrehog,
    discoverResourceToPrehog, GoError.IsBadParameter,
    usageeventsv1.DiscoverResource_DISCOVER_RESOURCE_UNSPECIFIED,
    usageeventsv1.DiscoverResource_DISCOVER_RESOURCE_SERVER]

end usagereporter

end Teleport

namespace Teleport

namespace usagereporter

open usageeventsv1

/-! ## The validation rules of the converter -/

/-- The converter succeeds exactly on the events that satisfy the validation rules. -/
theorem ConvertUsageEvent_ok_iff_valid (event : UsageEventOneOf) (userMD : UserMetadata) :
    (∃ a, ConvertUsageEvent event userMD = .ok a) ↔ event.valid = true := by
  cases event with
  | UiDiscoverStartedEvent m st =>
    by_cases h1 : m.Id = "" <;> by_cases h3 : (st.Status = .DISCOVER_STATUS_ERROR ∧ st.Error = "") <;>
      simp [ConvertUsageEvent, UsageEventOneOf.valid, UsageEventOneOf.metadataId,
        UsageEventOneOf.resource, UsageEventOneOf.stepStatus, UsageEventOneOf.resourcesCount,
        validateId, validateStatus, bind, Except.bind, pure, Except.pure, h1, h3]
    all_goals tauto
  | UiDiscoverResourceSelectionEvent m r st =>
    by_cases h1 : m.Id = "" <;>
      by_cases h2 : r.Resource = DiscoverResource_DISCOVER_RESOURCE_UNSPECIFIED <;>
      by_cases h3 : (st.Status = .DISCOVER_STATUS_ERROR ∧ st.Error = "") <;>
      simp [ConvertUsageEvent, UsageEventOneOf.valid, UsageEventOneOf.metadataId,
        UsageEventOneOf.resource, UsageEventOneOf.stepStatus, UsageEventOneOf.resourcesCount,
        validateId, validateResource, validateStatus, bind, Except.bind, pure, Except.pure,
        h1, h2, h3]
    all_goals tauto
  | UiDiscoverAutoDiscoveredResourcesEvent m r st n =>
    by_cases h1 : m.Id = "" <;>
      by_cases h2 : r.Resource = DiscoverResource_DISCOVER_RESOURCE_UNSPECIFIED <;>
      by_cases h3 : (st.Status = .DISCOVER_STATUS_ERROR ∧ st.Error = "") <;>
      by_cases h4 : n < 0 <;>
      simp [ConvertUsageEvent, UsageEventOneOf.valid, UsageEventOneOf.metadataId,
        UsageEventOneOf.resource, UsageEventOneOf.stepStatus, UsageEventOneOf.resourcesCount,
        validateId, validateResource, validateStatus, validateCount, bind, Except.bind, pure,
        Except.pure, h1, h2, h3, h4]
    exact ⟨by tauto, by omega⟩
  | UiIntegrationEnrollStartEvent m =>
    by_cases h1 : m.Id = "" <;>
      simp [ConvertUsageEvent, UsageEventOneOf.valid, UsageEventOneOf.metadataId,
        UsageEventOneOf.resource, UsageEventOneOf.stepStatus, UsageEventOneOf.resourcesCount,
        validateId, bind, Except.bind, pure, Except.pure, h1]

/-- C11: for every discover event (one that has a step status) with a non-empty id, a
specified resource and a non-negative counter where it has these fields, and with step status
ERROR, the converter fails with a bad-parameter error iff the error message of the status is
empty, and succeeds iff the message is non-empty. -/
theorem ConvertUsageEvent_error_status (event : UsageEventOneOf) (userMD : UserMetadata)
    (st : DiscoverStepStatus) (hst : event.stepStatus = some st)
    (hid : event.metadataId ≠ "")
    (hres : ∀ r, event.resource = some r →
      r.Resource ≠ DiscoverResource_DISCOVER_RESOURCE_UNSPECIFIED)
    (hcnt : ∀ n, event.resourcesCount = some n → 0 ≤ n)
    (herr : st.Status = DiscoverStatus.DISCOVER_STATUS_ERROR) :
    ((∃ err, ConvertUsageEvent event userMD = .error err ∧ err.IsBadParameter = true) ↔
      st.Error = "") ∧
    ((∃ a, ConvertUsageEvent event userMD = .ok a) ↔ st.Error ≠ "") := by
  cases event with
  | UiDiscoverStartedEvent m st1 =>
    simp only [UsageEventOneOf.stepStatus, Option.some.injEq] at hst
    subst hst
    simp only [UsageEventOneOf.metadataId] at hid
    by_cases hm : st1.Error = "" <;>
      simp [ConvertUsageEvent, validateId, validateStatus, bind, Except.bind, pure, Except.pure,
        hid, herr, hm, GoError.IsBadParameter]
  | UiDiscoverResourceSelectionEvent m r st1 =>
    simp only [UsageEventOneOf.stepStatus, Option.some.injEq] at hst
    subst hst
    simp only [UsageEventOneOf.metadataId] at hid
    have hr := hres r rfl
    by_cases hm : st1.Error = "" <;>
      simp [ConvertUsageEvent, validateId, validateResource, validateStatus, bind, Except.bind,
        pure, Except.pure, hid, hr, herr, hm, GoError.IsBadParameter]
  | UiDiscoverAutoDiscoveredResourcesEvent m r st1 n =>
    simp only [UsageEventOneOf.stepStatus, Option.some.injEq] at hst
    subst hst
    simp only [UsageEventOneOf.metadataId] at hid
    have hr := hres r rfl
    have hn : ¬ n < 0 := not_lt.mpr (hcnt n rfl)
    by_cases hm : st1.Error = "" <;>
      simp [ConvertUsageEvent, validateId, validateResource, validateStatus, validateCount, bind,
        Except.bind, pure, Except.pure, hid, hr, herr, hm, hn, GoError.IsBadParameter]
  | UiIntegrationEnrollStartEvent m =>
    simp [UsageEventOneOf.stepStatus] at hst

theorem ConvertUsageEvent_error_status_witness :
    (UsageEventOneOf.UiDiscoverResourceSelectionEvent ⟨"someid"⟩
        ⟨DiscoverResource_DISCOVER_RESOURCE_SERVER⟩ ⟨.DISCOVER_STATUS_ERROR, ""⟩).metadataId ≠ "" ∧
    (DiscoverStepStatus.mk .DISCOVER_STATUS_ERROR "").Status = .DISCOVER_STATUS_ERROR ∧
    ((∃ err, ConvertUsageEvent (UsageEventOneOf.UiDiscoverResourceSelectionEvent ⟨"someid"⟩
        ⟨DiscoverResource_DISCOVER_RESOURCE_SERVER⟩ ⟨.DISCOVER_STATUS_ERROR, ""⟩)
        ⟨"myuser", false⟩ = .error err ∧ err.IsBadParameter = true) ↔
      (DiscoverStepStatus.mk .DISCOVER_STATUS_ERROR "").Error = "") ∧
    ((∃ a, ConvertUsageEvent (UsageEventOneOf.UiDiscoverResourceSelectionEvent ⟨"someid"⟩
        ⟨DiscoverResource_DISCOVER_RESOURCE_SERVER⟩ ⟨.DISCOVER_STATUS_ERROR, ""⟩)
        ⟨"myuser", false⟩ = .ok a) ↔
      (DiscoverStepStatus.mk .DISCOVER_STATUS_ERROR "").Error ≠ "") :=
  ⟨by decide, rfl, ConvertUsageEvent_error_status
    (UsageEventOneOf.UiDiscoverResourceSelectionEvent ⟨"someid"⟩
      ⟨DiscoverResource_DISCOVER_RESOURCE_SERVER⟩ ⟨.DISCOVER_STATUS_ERROR, ""⟩)
    ⟨"myuser", false⟩ ⟨.DISCOVER_STATUS_ERROR, ""⟩ rfl (by decide)
    (by intro r h; cases h; decide) (by intro n h; cases h) rfl⟩

/-- C12: for every auto-discovered-resources event with a non-empty id, a specified resource
and a step status that passes rule 3, the converter fails with a bad-parameter error iff the
counter is negative, and it succeeds with the counter of the outbound event, before and
after anonymization, equal to the inbound counter iff the counter is at least 0. -/
theorem ConvertUsageEvent_resources_count (m : DiscoverMetadata)
    (r : DiscoverResourceMetadata) (st : DiscoverStepStatus) (n : Int) (userMD : UserMetadata)
    (AnonymizeString : String → String)
    (hid : m.Id ≠ "")
    (hres : r.Resource ≠ DiscoverResource_DISCOVER_RESOURCE_UNSPECIFIED)
    (hst : ¬ (st.Status = DiscoverStatus.DISCOVER_STATUS_ERROR ∧ st.Error = "")) :
    ((∃ err, ConvertUsageEvent (.UiDiscoverAutoDiscoveredResourcesEvent m r st n) userMD =
        .error err ∧ err.IsBadParameter = true) ↔ n < 0) ∧
    ((∃ a, ConvertUsageEvent (.UiDiscoverAutoDiscoveredResourcesEvent m r st n) userMD = .ok a ∧
        a.event.resourcesCount = some n ∧
        (a.Anonymize AnonymizeString).resourcesCount = some n) ↔ 0 ≤ n) := by
  by_cases hn : n < 0
  · have hn1 : ¬ 0 ≤ n := not_le.mpr hn
    simp [ConvertUsageEvent, validateId, validateResource, validateStatus, validateCount, bind,
      Except.bind, pure, Except.pure, hid, hres, hst, hn, hn1, GoError.IsBadParameter]
  · have hn1 : 0 ≤ n := not_lt.mp hn
    simp [ConvertUsageEvent, validateId, validateResource, validateStatus, validateCount, bind,
      Except.bind, pure, Except.pure, hid, hres, hst, hn, hn1, GoError.IsBadParameter,
      Anonymizable.Anonymize, prehogv1a.SubmitEventRequest.resourcesCount]

theorem ConvertUsageEvent_resources_count_witness :
    (DiscoverMetadata.mk "someid").Id ≠ "" ∧
    (DiscoverResourceMetadata.mk DiscoverResource_DISCOVER_RESOURCE_SERVER).Resource ≠
      DiscoverResource_DISCOVER_RESOURCE_UNSPECIFIED ∧
    (∃ err, ConvertUsageEvent (.UiDiscoverAutoDiscoveredResourcesEvent ⟨"someid"⟩
        ⟨DiscoverResource_DISCOVER_RESOURCE_SERVER⟩ ⟨.DISCOVER_STATUS_SUCCESS, ""⟩ (-2))
        ⟨"myuser", false⟩ = .error err ∧ err.IsBadParameter = true) ∧
    (∃ a, ConvertUsageEvent (.UiDiscoverAutoDiscoveredResourcesEvent ⟨"someid"⟩
        ⟨DiscoverResource_DISCOVER_RESOURCE_SERVER⟩ ⟨.DISCOVER_STATUS_SUCCESS, ""⟩ 0)
        ⟨"myuser", false⟩ = .ok a ∧ a.event.resourcesCount = some 0 ∧
        (a.Anonymize id).resourcesCount = some 0) ∧
    (∃ a, ConvertUsageEvent (.UiDiscoverAutoDiscoveredResourcesEvent ⟨"someid"⟩
        ⟨DiscoverResource_DISCOVER_RESOURCE_SERVER⟩ ⟨.DISCOVER_STATUS_SUCCESS, ""⟩ 2)
        ⟨"myuser", false⟩ = .ok a ∧ a.event.resourcesCount = some 2 ∧
        (a.Anonymize id).resourcesCount = some 2) :=
  ⟨by decide, by decide,
    (ConvertUsageEvent_resources_count ⟨"someid"⟩ ⟨DiscoverResource_DISCOVER_RESOURCE_SERVER⟩
      ⟨.DISCOVER_STATUS_SUCCESS, ""⟩ (-2) ⟨"myuser", false⟩ id
      (by decide) (by decide) (by decide)).1.mpr (by decide),
    (ConvertUsageEvent_resources_count ⟨"someid"⟩ ⟨DiscoverResource_DISCOVER_RESOURCE_SERVER⟩
      ⟨.DISCOVER_STATUS_SUCCESS, ""⟩ 0 ⟨"myuser", false⟩ id
      (by decide) (by decide) (by decide)).2.mpr (by decide),
    (ConvertUsageEvent_resources_count ⟨"someid"⟩ ⟨DiscoverResource_DISCOVER_RESOURCE_SERVER⟩
      ⟨.DISCOVER_STATUS_SUCCESS, ""⟩ 2 ⟨"myuser", false⟩ id
      (by decide) (by decide) (by decide)).2.mpr (by decide)⟩

/-- C13: for every usage event that carries a resource field, if the resource is the
unspecified sentinel (code 0) the converter fails with a bad-parameter error and returns no
event, whatever the id, the status and the other fields are; when the id is non-empty the
error is the one of the resource rule. -/
theorem ConvertUsageEvent_unspecified_resource (event : UsageEventOneOf)
    (userMD : UserMetadata) (r : DiscoverResourceMetadata)
    (hr : event.resource = some r) (h0 : r.Resource = 0) :
    ∃ err, ConvertUsageEvent event userMD = .error err ∧ err.IsBadParameter = true ∧
      (event.metadataId ≠ "" → err = GoError.BadParameter "unknown/unspecified resource") := by
  cases event with
  | UiDiscoverStartedEvent m st => simp [UsageEventOneOf.resource] at hr
  | UiDiscoverResourceSelectionEvent m r1 st =>
    simp only [UsageEventOneOf.resource, Option.some.injEq] at hr
    subst hr
    by_cases h1 : m.Id = "" <;>
      simp [ConvertUsageEvent, validateId, validateResource, bind, Except.bind, h1, h0,
        DiscoverResource_DISCOVER_RESOURCE_UNSPECIFIED, GoError.IsBadParameter,
        UsageEventOneOf.metadataId]
  | UiDiscoverAutoDiscoveredResourcesEvent m r1 st n =>
    simp only [UsageEventOneOf.resource, Option.some.injEq] at hr
    subst hr
    by_cases h1 : m.Id = "" <;>
      simp [ConvertUsageEvent, validateId, validateResource, bind, Except.bind, h1, h0,
        DiscoverResource_DISCOVER_RESOURCE_UNSPECIFIED, GoError.IsBadParameter,
        UsageEventOneOf.metadataId]
  | UiIntegrationEnrollStartEvent m => simp [UsageEventOneOf.resource] at hr

theorem ConvertUsageEvent_unspecified_resource_witness :
    (UsageEventOneOf.UiDiscoverResourceSelectionEvent ⟨"someid"⟩ ⟨0⟩
        ⟨.DISCOVER_STATUS_SUCCESS, ""⟩).resource = some ⟨0⟩ ∧
    ∃ err, ConvertUsageEvent (UsageEventOneOf.UiDiscoverResourceSelectionEvent ⟨"someid"⟩ ⟨0⟩
        ⟨.DISCOVER_STATUS_SUCCESS, ""⟩) ⟨"myuser", false⟩ = .error err ∧
      err.IsBadParameter = true ∧
      ((UsageEventOneOf.UiDiscoverResourceSelectionEvent ⟨"someid"⟩ ⟨0⟩
        ⟨.DISCOVER_STATUS_SUCCESS, ""⟩).metadataId ≠ "" →
        err = GoError.BadParameter "unknown/unspecified resource") :=
  ⟨rfl, ConvertUsageEvent_unspecified_resource _ ⟨"myuser", false⟩ ⟨0⟩ rfl rfl⟩

/-- C14: for every event that satisfies the validation rules and every user metadata, the
converter succeeds, and the request obtained by anonymizing its result is of the same
variant as the input, carries as user name the token `AnonymizeString Username`, carries
`IsSSO` in the `Sso` flag of its metadata, and has the id, resource, step status, kind and
counter of the input. -/
theorem ConvertUsageEvent_Anonymize (event : UsageEventOneOf) (userMD : UserMetadata)
    (AnonymizeString : String → String) (hv : event.valid = true) :
    ∃ a, ConvertUsageEvent event userMD = .ok a ∧
      (a.Anonymize AnonymizeString).variant = event.variant ∧
      (a.Anonymize AnonymizeString).userName = AnonymizeString userMD.Username ∧
      (a.Anonymize AnonymizeString).metadataSso = some userMD.IsSSO ∧
      (a.Anonymize AnonymizeString).metadataId = some event.metadataId ∧
      (a.Anonymize AnonymizeString).resource =
        event.resource.map (fun r => ⟨r.Resource⟩) ∧
      (a.Anonymize AnonymizeString).stepStatus =
        event.stepStatus.map (fun st => ⟨st.Status, st.Error⟩) ∧
      (a.Anonymize AnonymizeString).kind = event.kind ∧
      (a.Anonymize AnonymizeString).resourcesCount = event.resourcesCount := by
  cases event with
  | UiDiscoverStartedEvent m st =>
    simp [UsageEventOneOf.valid, UsageEventOneOf.metadataId, UsageEventOneOf.resource,
      UsageEventOneOf.stepStatus, UsageEventOneOf.resourcesCount] at hv
    have h3 : ¬ (st.Status = DiscoverStatus.DISCOVER_STATUS_ERROR ∧ st.Error = "") :=
      not_and_or.mpr hv.2
    simp [ConvertUsageEvent, validateId, validateStatus, bind, Except.bind, pure, Except.pure,
      hv.1, h3, Anonymizable.Anonymize, discoverMetadataToPrehog, discoverStatusToPrehog,
      prehogv1a.SubmitEventRequest.variant, UsageEventOneOf.variant,
      prehogv1a.SubmitEventRequest.userName, prehogv1a.SubmitEventRequest.metadataSso,
      prehogv1a.SubmitEventRequest.metadataId, UsageEventOneOf.metadataId,
      prehogv1a.SubmitEventRequest.resource, UsageEventOneOf.resource,
      prehogv1a.SubmitEventRequest.stepStatus, UsageEventOneOf.stepStatus,
      prehogv1a.SubmitEventRequest.kind, UsageEventOneOf.kind,
      prehogv1a.SubmitEventRequest.resourcesCount, UsageEventOneOf.resourcesCount]
  | UiDiscoverResourceSelectionEvent m r st =>
    simp [UsageEventOneOf.valid, UsageEventOneOf.metadataId, UsageEventOneOf.resource,
      UsageEventOneOf.stepStatus, UsageEventOneOf.resourcesCount] at hv
    have h3 : ¬ (st.Status = DiscoverStatus.DISCOVER_STATUS_ERROR ∧ st.Error = "") :=
      not_and_or.mpr hv.2
    simp [ConvertUsageEvent, validateId, validateResource, validateStatus, bind, Except.bind,
      pure, Except.pure, hv.1.1, hv.1.2, h3, Anonymizable.Anonymize, discoverMetadataToPrehog,
      discoverStatusToPrehog, discoverResourceToPrehog,
      prehogv1a.SubmitEventRequest.variant, UsageEventOneOf.variant,
      prehogv1a.SubmitEventRequest.userName, prehogv1a.SubmitEventRequest.metadataSso,
      prehogv1a.SubmitEventRequest.metadataId, UsageEventOneOf.metadataId,
      prehogv1a.SubmitEventRequest.resource, UsageEventOneOf.resource,
      prehogv1a.SubmitEventRequest.stepStatus, UsageEventOneOf.stepStatus,
      prehogv1a.SubmitEventRequest.kind, UsageEventOneOf.kind,
      prehogv1a.SubmitEventRequest.resourcesCount, UsageEventOneOf.resourcesCount]
  | UiDiscoverAutoDiscoveredResourcesEvent m r st n =>
    simp [UsageEventOneOf.valid, UsageEventOneOf.metadataId, UsageEventOneOf.resource,
      UsageEventOneOf.stepStatus, UsageEventOneOf.resourcesCount] at hv
    have h3 : ¬ (st.Status = DiscoverStatus.DISCOVER_STATUS_ERROR ∧ st.Error = "") :=
      not_and_or.mpr hv.1.2
    have hn : ¬ n < 0 := not_lt.mpr hv.2
    simp [ConvertUsageEvent, validateId, validateResource, validateStatus, validateCount, bind,
      Except.bind, pure, Except.pure, hv.1.1.1, hv.1.1.2, h3, hn, Anonymizable.Anonymize, discoverMetadataToPrehog,
      discoverStatusToPrehog, discoverResourceToPrehog,
      prehogv1a.SubmitEventRequest.variant, UsageEventOneOf.variant,
      prehogv1a.SubmitEventRequest.userName, prehogv1a.SubmitEventRequest.metadataSso,
      prehogv1a.SubmitEventRequest.metadataId, UsageEventOneOf.metadataId,
      prehogv1a.SubmitEventRequest.resource, UsageEventOneOf.resource,
      prehogv1a.SubmitEventRequest.stepStatus, UsageEventOneOf.stepStatus,
      prehogv1a.SubmitEventRequest.kind, UsageEventOneOf.kind,
      prehogv1a.SubmitEventRequest.resourcesCount, UsageEventOneOf.resourcesCount]
  | UiIntegrationEnrollStartEvent m =>
    simp [UsageEventOneOf.valid, UsageEventOneOf.metadataId, UsageEventOneOf.resource,
      UsageEventOneOf.stepStatus, UsageEventOneOf.resourcesCount] at hv
    simp [ConvertUsageEvent, validateId, bind, Except.bind, pure, Except.pure, hv,
      Anonymizable.Anonymize,
      prehogv1a.SubmitEventRequest.variant, UsageEventOneOf.variant,
      prehogv1a.SubmitEventRequest.userName, prehogv1a.SubmitEventRequest.metadataSso,
      prehogv1a.SubmitEventRequest.metadataId, UsageEventOneOf.metadataId,
      prehogv1a.SubmitEventRequest.resource, UsageEventOneOf.resource,
      prehogv1a.SubmitEventRequest.stepStatus, UsageEventOneOf.stepStatus,
      prehogv1a.SubmitEventRequest.kind, UsageEventOneOf.kind,
      prehogv1a.SubmitEventRequest.resourcesCount, UsageEventOneOf.resourcesCount]

theorem ConvertUsageEvent_Anonymize_witness :
    (UsageEventOneOf.UiDiscoverStartedEvent ⟨"someid"⟩ ⟨.DISCOVER_STATUS_SUCCESS, ""⟩).valid
      = true ∧
    ∃ a, ConvertUsageEvent
        (UsageEventOneOf.UiDiscoverStartedEvent ⟨"someid"⟩ ⟨.DISCOVER_STATUS_SUCCESS, ""⟩)
        ⟨"myuser", true⟩ = .ok a ∧
      (a.Anonymize (fun s => "hmac:" ++ s)).variant = "UiDiscoverStartedEvent" ∧
      (a.Anonymize (fun s => "hmac:" ++ s)).userName = "hmac:myuser" ∧
      (a.Anonymize (fun s => "hmac:" ++ s)).metadataSso = some true ∧
      (a.Anonymize (fun s => "hmac:" ++ s)).metadataId = some "someid" ∧
      (a.Anonymize (fun s => "hmac:" ++ s)).resource = none ∧
      (a.Anonymize (fun s => "hmac:" ++ s)).stepStatus =
        some ⟨.DISCOVER_STATUS_SUCCESS, ""⟩ ∧
      (a.Anonymize (fun s => "hmac:" ++ s)).kind = none ∧
      (a.Anonymize (fun s => "hmac:" ++ s)).resourcesCount = none :=
  ⟨by decide, ConvertUsageEvent_Anonymize
    (UsageEventOneOf.UiDiscoverStartedEvent ⟨"someid"⟩ ⟨.DISCOVER_STATUS_SUCCESS, ""⟩)
    ⟨"myuser", true⟩ (fun s => "hmac:" ++ s) (by decide)⟩

end usagereporter

end Teleport

namespace Teleport

namespace ui

open types

/-! ## The UI resource projection -/

/-- The loop stops at the first resource outside the four cases: the slice built so far is
dropped and the error names the type of that resource. -/
theorem MakeUIResource_loop_unknown {Label : Type} (makeLabels : GoMap → Slice Label)
    (pre : List ResourceWithLabels) (goType : String) (post : List ResourceWithLabels)
    (hpre : ∀ r ∈ pre, r.isKnown = true) (acc : Slice (UnifiedResource Label)) :
    MakeUIResource.loop makeLabels (pre ++ ResourceWithLabels.Other goType :: post) acc =
      (none, some (GoError.Errorf ("UI Resource has unknown type: " ++ goType))) := by
  induction pre generalizing acc with
  | nil => simp [MakeUIResource.loop]
  | cons r rest ih =>
    have hrest : ∀ x ∈ rest, x.isKnown = true := fun x hx => hpre x (List.mem_cons_of_mem _ hx)
    have hr := hpre r (List.mem_cons_self _ _)
    cases r with
    | Other t => simp [ResourceWithLabels.isKnown] at hr
    | Server s => simp only [List.cons_append, MakeUIResource.loop]; exact ih hrest _
    | DatabaseServer s => simp only [List.cons_append, MakeUIResource.loop]; exact ih hrest _
    | AppServer s => simp only [List.cons_append, MakeUIResource.loop]; exact ih hrest _
    | WindowsDesktop s => simp only [List.cons_append, MakeUIResource.loop]; exact ih hrest _

/-- A list with a resource outside the four cases splits at the first such resource. -/
theorem exists_first_unknown (resources : List ResourceWithLabels)
    (h : ∃ r ∈ resources, r.isKnown = false) :
    ∃ pre goType post, resources = pre ++ ResourceWithLabels.Other goType :: post ∧
      ∀ r ∈ pre, r.isKnown = true := by
  induction resources with
  | nil => simp at h
  | cons x rest ih =>
    cases hx : x.isKnown with
    | false =>
      cases x with
      | Other t => exact ⟨[], t, rest, rfl, by simp⟩
      | Server s => simp [ResourceWithLabels.isKnown] at hx
      | DatabaseServer s => simp [ResourceWithLabels.isKnown] at hx
      | AppServer s => simp [ResourceWithLabels.isKnown] at hx
      | WindowsDesktop s => simp [ResourceWithLabels.isKnown] at hx
    | true =>
      obtain ⟨r, hr, hk⟩ := h
      have hr1 : r ∈ rest := by
        rcases List.mem_cons.mp hr with heq | hmem
        · subst heq; rw [hx] at hk; cases hk
        · exact hmem
      obtain ⟨pre, t, post, heq, hpre⟩ := ih ⟨r, hr1, hk⟩
      refine ⟨x :: pre, t, post, by simp [heq], ?_⟩
      intro y hy
      rcases List.mem_cons.mp hy with h1 | h2
      · subst h1; exact hx
      · exact hpre y h2

/-- C15: for every resource list that contains, at any position, an element that is not a
Server, DatabaseServer, AppServer or WindowsDesktop, `MakeUIResource` returns the nil slice
and an error; the error is the one for the first such element, whatever precedes and
follows it, so nothing is skipped and no partial list is returned. -/
theorem MakeUIResource_unknown {Label AccessChecker : Type} (makeLabels : GoMap → Slice Label)
    (clusterName : String) (resources : List ResourceWithLabels)
    (accessChecker : AccessChecker) (h : ∃ r ∈ resources, r.isKnown = false) :
    (MakeUIResource makeLabels clusterName resources accessChecker).1 = none ∧
    ∃ pre goType post, resources = pre ++ ResourceWithLabels.Other goType :: post ∧
      (∀ r ∈ pre, r.isKnown = true) ∧
      (MakeUIResource makeLabels clusterName resources accessChecker).2 =
        some (GoError.Errorf ("UI Resource has unknown type: " ++ goType)) := by
  obtain ⟨pre, t, post, heq, hpre⟩ := exists_first_unknown resources h
  have hrun := MakeUIResource_loop_unknown makeLabels pre t post hpre (some [])
  subst heq
  refine ⟨?_, pre, t, post, rfl, hpre, ?_⟩
  · simp [MakeUIResource, hrun]
  · simp [MakeUIResource, hrun]

theorem MakeUIResource_unknown_witness :
    (∃ r ∈ [ResourceWithLabels.Server ⟨"node", "uuid", "host", "10.0.0.1:22", none⟩,
        ResourceWithLabels.Other "*types.KubernetesClusterV3",
        ResourceWithLabels.AppServer ⟨"app_server", "grafana", none⟩], r.isKnown = false) ∧
    ((MakeUIResource (fun _ => (none : Slice Unit)) "cluster"
        [ResourceWithLabels.Server ⟨"node", "uuid", "host", "10.0.0.1:22", none⟩,
         ResourceWithLabels.Other "*types.KubernetesClusterV3",
         ResourceWithLabels.AppServer ⟨"app_server", "grafana", none⟩] ()).1 = none ∧
     ∃ pre goType post,
      [ResourceWithLabels.Server ⟨"node", "uuid", "host", "10.0.0.1:22", none⟩,
        ResourceWithLabels.Other "*types.KubernetesClusterV3",
        ResourceWithLabels.AppServer ⟨"app_server", "grafana", none⟩] =
          pre ++ ResourceWithLabels.Other goType :: post ∧
      (∀ r ∈ pre, r.isKnown = true) ∧
      (MakeUIResource (fun _ => (none : Slice Unit)) "cluster"
        [ResourceWithLabels.Server ⟨"node", "uuid", "host", "10.0.0.1:22", none⟩,
         ResourceWithLabels.Other "*types.KubernetesClusterV3",
         ResourceWithLabels.AppServer ⟨"app_server", "grafana", none⟩] ()).2 =
        some (GoError.Errorf ("UI Resource has unknown type: " ++ goType))) :=
  ⟨⟨ResourceWithLabels.Other "*types.KubernetesClusterV3", by simp, rfl⟩,
    MakeUIResource_unknown (fun _ => (none : Slice Unit)) "cluster" _ ()
      ⟨ResourceWithLabels.Other "*types.KubernetesClusterV3", by simp, rfl⟩⟩

end ui

namespace events

/-! ## The discard emitter and the remaining stream operations -/

/-- C16: for every session id and upload id (and every context), `CreateAuditStream` and
`ResumeAuditStream` return a nil error and a stream in the Open state, flag false and
`done` allocated and not closed; the first `RecordEvent` and the first `Write` on the
returned stream succeed. -/
theorem CreateAuditStream_open (addr : Nat) (ctx ctx1 : Context) (sid uploadID : String)
    (event : AuditEvent) (p : List Byte) :
    ((DiscardEmitter.CreateAuditStream addr ctx sid).2 = none ∧
      (DiscardEmitter.CreateAuditStream addr ctx sid).1.completed = false ∧
      (DiscardEmitter.CreateAuditStream addr ctx sid).1.done =
        some { addr := addr, closed := false } ∧
      ((DiscardEmitter.CreateAuditStream addr ctx sid).1.RecordEvent ctx1 event).ret = none ∧
      ((DiscardEmitter.CreateAuditStream addr ctx sid).1.Write p).ret = (p.length, none)) ∧
    ((DiscardEmitter.ResumeAuditStream addr ctx sid uploadID).2 = none ∧
      (DiscardEmitter.ResumeAuditStream addr ctx sid uploadID).1.completed = false ∧
      (DiscardEmitter.ResumeAuditStream addr ctx sid uploadID).1.done =
        some { addr := addr, closed := false } ∧
      ((DiscardEmitter.ResumeAuditStream addr ctx sid uploadID).1.RecordEvent ctx1 event).ret
        = none ∧
      ((DiscardEmitter.ResumeAuditStream addr ctx sid uploadID).1.Write p).ret
        = (p.length, none)) :=
  ⟨⟨rfl, rfl, rfl, rfl, rfl⟩, ⟨rfl, rfl, rfl, rfl, rfl⟩⟩

/-- C17: for every payload `p`, `Write(p)` on a stream whose completed flag is false
returns the count `len(p)` and a nil error, performs no effect and leaves the stream as it
was; on the empty payload the count is 0. -/
theorem Write_open (d : DiscardStream) (p : List Byte) (h : d.completed = false) :
    d.Write p = { ret := (p.length, none), stream := d, effects := [] } ∧
    (d.Write []).ret = (0, none) := by
  simp [DiscardStream.Write, h]

theorem Write_open_witness :
    (NewDiscardStream 0).completed = false ∧
    ((NewDiscardStream 0).Write [1, 2, 3] =
        { ret := (([1, 2, 3] : List Byte).length, none), stream := NewDiscardStream 0,
          effects := [] } ∧
      ((NewDiscardStream 0).Write []).ret = (0, none)) :=
  ⟨rfl, Write_open (NewDiscardStream 0) [1, 2, 3] rfl⟩

/-- C18: for every context and every audit event, both `DiscardEmitter.EmitAuditEvent` and
`DiscardAuditLog.EmitAuditEvent` return the nil error. -/
theorem EmitAuditEvent_succeeds (ctx : Context) (event : AuditEvent) :
    (DiscardEmitter.EmitAuditEvent ctx event).1 = none ∧
    (DiscardAuditLog.EmitAuditEvent ctx event).1 = none :=
  ⟨rfl, rfl⟩

/-- C19: for every stream state and every event, `SetupEvent` returns nil, performs no
effect and leaves the flag and the channel as they were; on a completed stream it still
returns nil, where `RecordEvent` returns the "stream is closed" error. -/
theorem SetupEvent_noop (d : DiscardStream) (addr : Nat) (ctx : Context) (event : AuditEvent) :
    d.SetupEvent event = { ret := none, stream := d, effects := [] } ∧
    ((completedStream addr).SetupEvent event).ret = none ∧
    ((completedStream addr).RecordEvent ctx event).ret =
      some (GoError.BadParameter "stream is closed") :=
  ⟨rfl, rfl, rfl⟩

end events

namespace servicecfg

/-! ## The plugins configuration -/

/-- C20: for every `PluginsConfig`, `IsEmpty` returns true iff the `Plugins` map is nil or
has no entries, and its value does not change when `Enabled` and `OpsgenieAPIKey` are
replaced by any other values. -/
theorem PluginsConfig_IsEmpty_iff (d : PluginsConfig) (enabled : Bool) (key : String) :
    (d.IsEmpty = true ↔ (d.Plugins = none ∨ d.Plugins = some ∅)) ∧
    (d.IsEmpty = true ↔ ∀ m, d.Plugins = some m → m.entries = []) ∧
    (d.IsEmpty = false ↔ ∃ m e, d.Plugins = some m ∧ e ∈ m.entries) ∧
    ({ d with Enabled := enabled, OpsgenieAPIKey := key } : PluginsConfig).IsEmpty =
      d.IsEmpty := by
  obtain ⟨en, k, pl⟩ := d
  cases pl with
  | none => simp [PluginsConfig.IsEmpty, GoMap.len]
  | some m =>
    obtain ⟨entries, nd⟩ := m
    cases entries with
    | nil =>
      simp [PluginsConfig.IsEmpty, GoMap.len]
      rfl
    | cons x xs =>
      simp [PluginsConfig.IsEmpty, GoMap.len]
      constructor
      · intro hEq
        have := congrArg AList.entries hEq
        simp at this
      · exact ⟨x.1, x.2, Or.inl rfl⟩

end servicecfg

end Teleport

namespace Teleport

namespace events

/-! ## Frame properties of the discard stream -/

/-- C21, refuted: `Close` alone on a new stream, with no `Complete` call, returns nil and
leaves the completed flag true. -/
theorem Close_sets_completed_counterexample :
    ∃ r, (NewDiscardStream 0).Close Context.background = .ok r ∧
      r.stream.completed = true ∧ r.stream.completed ≠ false :=
  ⟨⟨none, completedStream 0, [Effect.closeChan 0]⟩, rfl, rfl, by decide⟩

/-- C21, amended: on an open stream, one reached from `NewDiscardStream` by calls none of
which is `Complete` or `Close`, `Close` returns nil, closes `done` and sets the completed
flag, leaving the stream in the state `Complete` leaves it in; a `RecordEvent` or `Write`
that follows is rejected with "stream is closed", and a `Complete` that follows returns
nil without closing `done` again. -/
theorem Close_marks_completed (addr : Nat) (ops : List Op) (ctx ctx1 : Context)
    (event : AuditEvent) (p : List Byte) (h : ops.any Op.completes = false) :
    ∃ d es, runOps (NewDiscardStream addr) ops = .ok (d, es) ∧ d.completed = false ∧
      d.Close ctx = .ok { ret := none,
                          stream := { completed := true,
                                      done := some { addr := addr, closed := true } },
                          effects := [Effect.closeChan addr] } ∧
      ((completedStream addr).RecordEvent ctx1 event).ret =
        some (GoError.BadParameter "stream is closed") ∧
      ((completedStream addr).Write p).ret =
        (0, some (GoError.BadParameter "stream is closed")) ∧
      (completedStream addr).Complete ctx1 =
        .ok { ret := none, stream := completedStream addr, effects := [] } := by
  obtain ⟨es, hrun, -⟩ := runOps_new addr ops
  simp only [h, Bool.false_eq_true, if_false] at hrun
  exact ⟨_, es, hrun, rfl, rfl, rfl, rfl, rfl⟩

theorem Close_marks_completed_witness :
    [Op.SetupEvent ⟨"id", "session.start", 0, 0⟩,
      Op.RecordEvent Context.background ⟨"id", "session.start", 0, 0⟩].any Op.completes
      = false ∧
    ∃ d es, runOps (NewDiscardStream 5) [Op.SetupEvent ⟨"id", "session.start", 0, 0⟩,
        Op.RecordEvent Context.background ⟨"id", "session.start", 0, 0⟩] = .ok (d, es) ∧
      d.completed = false ∧
      d.Close Context.background =
        .ok { ret := none,
              stream := { completed := true, done := some { addr := 5, closed := true } },
              effects := [Effect.closeChan 5] } ∧
      ((completedStream 5).RecordEvent Context.background ⟨"id", "print", 1, 1⟩).ret =
        some (GoError.BadParameter "stream is closed") ∧
      ((completedStream 5).Write [7]).ret =
        (0, some (GoError.BadParameter "stream is closed")) ∧
      (completedStream 5).Complete Context.background =
        .ok { ret := none, stream := completedStream 5, effects := [] } :=
  ⟨rfl, Close_marks_completed 5 _ Context.background Context.background
    ⟨"id", "print", 1, 1⟩ [7] rfl⟩

/-- C22: for every stream state and all arguments, `RecordEvent`, `Write`, `Status` and
`Done` leave the completed flag and the `done` channel exactly as they were and close no
channel, whether they return an error or not; `Done` returns the `done` field, and on a
stream obtained from `NewDiscardStream` by any sequence of calls that is the channel the
constructor allocated. A call that is not `Complete` or `Close` never changes the
stream. -/
theorem only_Complete_Close_change (d : DiscardStream) (ctx : Context) (event : AuditEvent)
    (p : List Byte) (addr : Nat) (ops : List Op) (op : Op) :
    ((d.RecordEvent ctx event).stream = d ∧
      (d.RecordEvent ctx event).effects.filter Effect.isClose = []) ∧
    ((d.Write p).stream = d ∧ (d.Write p).effects = []) ∧
    (d.Status.stream = d ∧ d.Status.effects = []) ∧
    (d.Done.stream = d ∧ d.Done.effects = [] ∧ d.Done.ret = d.done) ∧
    (op.completes = false → ∃ es, applyOp d op = .ok (d, es) ∧ es.filter Effect.isClose = []) ∧
    (∃ d1 es, runOps (NewDiscardStream addr) ops = .ok (d1, es) ∧
      ∃ ch, d1.Done.ret = some ch ∧ ch.addr = addr ∧
        (NewDiscardStream addr).Done.ret = some ⟨ch.addr, false⟩) := by
  refine ⟨?_, ?_, ⟨rfl, rfl⟩, ⟨rfl, rfl, rfl⟩, ?_, ?_⟩
  · cases h : d.completed <;> simp [DiscardStream.RecordEvent, h, Effect.isClose]
  · cases h : d.completed <;> simp [DiscardStream.Write, h]
  · intro hop
    cases op with
    | Close c => simp [Op.completes] at hop
    | Complete c => simp [Op.completes] at hop
    | SetupEvent e => exact ⟨_, rfl, rfl⟩
    | RecordEvent c e =>
      cases h : d.completed <;>
        simp [applyOp, DiscardStream.RecordEvent, h, Effect.isClose]
    | Write q => cases h : d.completed <;> simp [applyOp, DiscardStream.Write, h]
    | Status => exact ⟨_, rfl, rfl⟩
    | Done => exact ⟨_, rfl, rfl⟩
  · obtain ⟨es, hrun, -⟩ := runOps_new addr ops
    refine ⟨_, es, hrun, ?_⟩
    cases h : ops.any Op.completes <;>
      simp [DiscardStream.Done, NewDiscardStream, completedStream]

end events

end Teleport

namespace Teleport

namespace ui

open types

/-! ## The projection on lists of known resources -/

/-- The specified entry exists exactly for the resources of the four kinds. -/
theorem specUIResource_isSome {Label : Type} (makeLabels : GoMap → Slice Label)
    (r : ResourceWithLabels) : (specUIResource makeLabels r).isSome = r.isKnown := by
  cases r <;> rfl

/-- On resources of the four kinds the loop appends the specified entries, in order, to
the slice built so far. -/
theorem MakeUIResource_loop_known {Label : Type} (makeLabels : GoMap → Slice Label)
    (resources : List ResourceWithLabels) (hk : ∀ r ∈ resources, r.isKnown = true)
    (acc : List (UnifiedResource Label)) :
    MakeUIResource.loop makeLabels resources (some acc) =
      (some (acc ++ resources.filterMap (specUIResource makeLabels)), none) := by
  induction resources generalizing acc with
  | nil => simp [MakeUIResource.loop]
  | cons r rest ih =>
    have hrest : ∀ x ∈ rest, x.isKnown = true := fun x hx => hk x (List.mem_cons_of_mem _ hx)
    have hr := hk r (List.mem_cons_self _ _)
    cases r with
    | Other t => simp [ResourceWithLabels.isKnown] at hr
    | Server s =>
      simp [MakeUIResource.loop, ih hrest, Slice.append, specUIResource]
    | DatabaseServer s =>
      simp [MakeUIResource.loop, ih hrest, Slice.append, specUIResource]
    | AppServer s =>
      simp [MakeUIResource.loop, ih hrest, Slice.append, specUIResource]
    | WindowsDesktop s =>
      simp [MakeUIResource.loop, ih hrest, Slice.append, specUIResource]

/-- Whatever the resources, the loop either returns the nil slice or the slice built so
far followed by the specified entries of all the resources. -/
theorem MakeUIResource_loop_result {Label : Type} (makeLabels : GoMap → Slice Label)
    (resources : List ResourceWithLabels) (acc : List (UnifiedResource Label)) :
    (MakeUIResource.loop makeLabels resources (some acc)).1 = none ∨
    (MakeUIResource.loop makeLabels resources (some acc)).1 =
      some (acc ++ resources.filterMap (specUIResource makeLabels)) := by
  induction resources generalizing acc with
  | nil => right; simp [MakeUIResource.loop]
  | cons r rest ih =>
    cases r with
    | Other t => left; simp [MakeUIResource.loop]
    | Server s =>
      rcases ih (acc ++ [⟨s.GetKind, s.GetHostname, makeLabels s.GetAllLabels, s.GetAddr,
        none, none⟩]) with h | h
      · left; simpa [MakeUIResource.loop, Slice.append] using h
      · right; simpa [MakeUIResource.loop, Slice.append, specUIResource] using h
    | DatabaseServer s =>
      rcases ih (acc ++ [⟨s.GetKind, s.GetName, makeLabels s.GetAllLabels, "",
        none, none⟩]) with h | h
      · left; simpa [MakeUIResource.loop, Slice.append] using h
      · right; simpa [MakeUIResource.loop, Slice.append, specUIResource] using h
    | AppServer s =>
      rcases ih (acc ++ [⟨s.GetKind, s.GetName, makeLabels s.GetAllLabels, "",
        none, none⟩]) with h | h
      · left; simpa [MakeUIResource.loop, Slice.append] using h
      · right; simpa [MakeUIResource.loop, Slice.append, specUIResource] using h
    | WindowsDesktop s =>
      rcases ih (acc ++ [⟨s.GetKind, s.GetName, makeLabels s.GetAllLabels, s.GetAddr,
        none, none⟩]) with h | h
      · left; simpa [MakeUIResource.loop, Slice.append] using h
      · right; simpa [MakeUIResource.loop, Slice.append, specUIResource] using h

/-- The specified entries have nil login lists. -/
theorem specUIResource_logins {Label : Type} (makeLabels : GoMap → Slice Label)
    (r : ResourceWithLabels) (u : UnifiedResource Label)
    (h : specUIResource makeLabels r = some u) : u.SSHLogins = none ∧ u.Logins = none := by
  cases r <;> simp [specUIResource] at h <;> subst h <;> exact ⟨rfl, rfl⟩

/-- C23: for every resource list that consists only of Server, DatabaseServer, AppServer
and WindowsDesktop values, `MakeUIResource` returns a nil error and a non-nil slice of the
same length (the empty non-nil slice for the empty list) whose entry at every index is the
entry specified for the resource at that index: its kind, `makeLabels` of its labels, the
hostname of a Server or the name of the other kinds, the address of a Server or
WindowsDesktop or the empty string. -/
theorem MakeUIResource_known {Label AccessChecker : Type} (makeLabels : GoMap → Slice Label)
    (clusterName : String) (resources : List ResourceWithLabels)
    (accessChecker : AccessChecker) (hk : ∀ r ∈ resources, r.isKnown = true) :
    ∃ out, MakeUIResource makeLabels clusterName resources accessChecker = (some out, none) ∧
      out.length = resources.length ∧
      (∀ i : Nat, out[i]? = (resources[i]?).bind (specUIResource makeLabels)) ∧
      (∀ (i : Nat) (s : Server), resources[i]? = some (.Server s) →
        out[i]? = some ⟨s.GetKind, s.GetHostname, makeLabels s.GetAllLabels, s.GetAddr,
          none, none⟩) ∧
      (∀ (i : Nat) (s : DatabaseServer), resources[i]? = some (.DatabaseServer s) →
        out[i]? = some ⟨s.GetKind, s.GetName, makeLabels s.GetAllLabels, "", none, none⟩) ∧
      (∀ (i : Nat) (s : AppServer), resources[i]? = some (.AppServer s) →
        out[i]? = some ⟨s.GetKind, s.GetName, makeLabels s.GetAllLabels, "", none, none⟩) ∧
      (∀ (i : Nat) (s : WindowsDesktop), resources[i]? = some (.WindowsDesktop s) →
        out[i]? = some ⟨s.GetKind, s.GetName, makeLabels s.GetAllLabels, s.GetAddr,
          none, none⟩) ∧
      (resources = [] → out = []) := by
  have hrun := MakeUIResource_loop_known makeLabels resources hk []
  have hmap : resources.filterMap (specUIResource makeLabels) =
      resources.map (fun r => (specUIResource makeLabels r).getD ⟨"", "", none, "", none, none⟩) ∧
      ∀ i : Nat, (resources.filterMap (specUIResource makeLabels))[i]? =
        (resources[i]?).bind (specUIResource makeLabels) := by
    clear hrun
    induction resources with
    | nil => simp
    | cons r rest ih =>
      have hrest : ∀ x ∈ rest, x.isKnown = true := fun x hx => hk x (List.mem_cons_of_mem _ hx)
      have hr := hk r (List.mem_cons_self _ _)
      obtain ⟨ih1, ih2⟩ := ih hrest
      have hs : ∃ u, specUIResource makeLabels r = some u := by
        have := specUIResource_isSome makeLabels r
        rw [hr] at this
        exact Option.isSome_iff_exists.mp this
      obtain ⟨u, hu⟩ := hs
      constructor
      · simp [List.filterMap_cons, hu, ih1]
      · intro i
        cases i with
        | zero => simp [List.filterMap_cons, hu]
        | succ j => simpa [List.filterMap_cons, hu] using ih2 j
  refine ⟨resources.filterMap (specUIResource makeLabels), ?_, ?_, hmap.2, ?_, ?_, ?_, ?_, ?_⟩
  · simpa [MakeUIResource] using hrun
  · rw [hmap.1]; simp
  · intro i s hi; rw [hmap.2 i, hi]; rfl
  · intro i s hi; rw [hmap.2 i, hi]; rfl
  · intro i s hi; rw [hmap.2 i, hi]; rfl
  · intro i s hi; rw [hmap.2 i, hi]; rfl
  · intro he; subst he; rfl

theorem MakeUIResource_known_witness :
    (∀ r ∈ sampleResources, r.isKnown = true) ∧
    ∃ out, MakeUIResource sampleMakeLabels "cluster" sampleResources () = (some out, none) ∧
      out.length = sampleResources.length ∧
      out = [⟨"node", "host-1", some [0], "10.0.0.1:3022", none, none⟩,
             ⟨"db_server", "postgres", some [0], "", none, none⟩,
             ⟨"app_server", "grafana", some [0], "", none, none⟩,
             ⟨"windows_desktop", "win-1", some [0], "10.0.0.2:3389", none, none⟩] := by
  have hk : ∀ r ∈ sampleResources, r.isKnown = true := by
    intro r hr
    simp only [sampleResources, List.mem_cons, List.mem_singleton, List.not_mem_nil,
      or_false] at hr
    rcases hr with h | h | h | h <;> subst h <;> rfl
  obtain ⟨out, hout, hlen, -⟩ := MakeUIResource_known sampleMakeLabels "cluster"
    sampleResources () hk
  refine ⟨hk, out, hout, hlen, ?_⟩
  have h2 : MakeUIResource sampleMakeLabels "cluster" sampleResources () =
      (some [⟨"node", "host-1", some [0], "10.0.0.1:3022", none, none⟩,
             ⟨"db_server", "postgres", some [0], "", none, none⟩,
             ⟨"app_server", "grafana", some [0], "", none, none⟩,
             ⟨"windows_desktop", "win-1", some [0], "10.0.0.2:3389", none, none⟩], none) := rfl
  rw [h2] at hout
  simp only [Prod.mk.injEq, Option.some.injEq, and_true] at hout
  exact hout.symm

/-- C24: for every resource list, any two cluster names and any two access checkers,
`MakeUIResource` returns the same slice and the same error; and every entry of a returned
slice has nil `SSHLogins` and nil `Logins`. -/
theorem MakeUIResource_independent {Label AccessChecker1 AccessChecker2 : Type}
    (makeLabels : GoMap → Slice Label) (clusterName1 clusterName2 : String)
    (accessChecker1 : AccessChecker1) (accessChecker2 : AccessChecker2)
    (resources : List ResourceWithLabels) :
    MakeUIResource makeLabels clusterName1 resources accessChecker1 =
      MakeUIResource makeLabels clusterName2 resources accessChecker2 ∧
    ∀ out, (MakeUIResource makeLabels clusterName1 resources accessChecker1).1 = some out →
      ∀ u ∈ out, u.SSHLogins = none ∧ u.Logins = none := by
  refine ⟨rfl, ?_⟩
  intro out hout u hu
  rcases MakeUIResource_loop_result makeLabels resources [] with h | h
  · simp only [MakeUIResource] at hout
    rw [h] at hout
    cases hout
  · simp only [MakeUIResource] at hout
    rw [h] at hout
    simp only [List.nil_append, Option.some.injEq] at hout
    subst hout
    obtain ⟨r, -, hr⟩ := List.mem_filterMap.mp hu
    exact specUIResource_logins makeLabels r u hr

end ui

end Teleport
